import Mathlib

/-!
Verification development for the naqsh color-quantization and palette core.

Packed ARGB color ints are `i32` in the source; every operation the claims
touch (shifts by 8/16/24 followed by `& 0xff`, masking with `0x00ffffff`,
packing by disjoint `|`) acts on the two's-complement bit pattern, so we model
a packed color by its unsigned 32-bit view, a natural number below 2^32.
Under that view Rust's `(c >> k) & 0xff` (arithmetic shift, then mask) is
exactly `c / 2^k % 256`, and `c & 0x00ffffff` is `c % 2^24`.

Floating point (`f32`/`f64`) is modelled by exact rationals; the one
non-rational operation, `f64::powf(x, 2.4)` inside the sRGB gamma expansion,
is kept abstract as a function parameter `pw` threaded through the
colorimetric definitions.  Fallible operations (Rust `panic!`, index
out-of-bounds, `usize` underflow) are modelled with `Option`, returning
`none` where the source aborts.
-/

namespace Naqsh

/-- HSL triple (hue, saturation, lightness) as exact rationals. -/
abbrev Hsl := ℚ × ℚ × ℚ

/-! ## src/graphics/color.rs -/

namespace Color

/-- `Color::BLACK = 0xFF000000` (u32 view of the i32 constant). -/
def BLACK : ℕ := 0xFF000000

/-- `Color::WHITE = 0xFFFFFFFF` (u32 view of the i32 constant). -/
def WHITE : ℕ := 0xFFFFFFFF

/-- `Color::alpha`: `((color >> 24) & 0xff) as u8`. -/
def alpha (color : ℕ) : ℕ := color / 2 ^ 24 % 256

/-- `Color::red`: `((color >> 16) & 0xFF) as u8`. -/
def red (color : ℕ) : ℕ := color / 2 ^ 16 % 256

/-- `Color::green`: `((color >> 8) & 0xFF) as u8`. -/
def green (color : ℕ) : ℕ := color / 2 ^ 8 % 256

/-- `Color::blue`: the source computes `(color >> 8 & 0xFF) as u8`
(shift by 8, i.e. the same byte as `green`), not `color & 0xFF`. -/
def blue (color : ℕ) : ℕ := color / 2 ^ 8 % 256

/-- `Color::rgb`: `0xff000000 | red << 16 | green << 8 | blue` on wrapping
i32; the orred fields are disjoint, so the u32 view is this sum. -/
def rgb (r g b : ℕ) : ℕ := 0xFF000000 + r % 256 * 2 ^ 16 + g % 256 * 2 ^ 8 + b % 256

/-- `Color::argb`: `alpha << 24 | red << 16 | green << 8 | blue` with `u8`
arguments; disjoint fields, so the u32 view is this sum. -/
def argb (a r g b : ℕ) : ℕ :=
  a % 256 * 2 ^ 24 + r % 256 * 2 ^ 16 + g % 256 * 2 ^ 8 + b % 256

/-- The blue extraction the `Color` struct's own decoding documentation
specifies: `int B = (color) & 0xff`.  Kept separately to compare with
`Color.blue` as implemented. -/
def blueDocumented (color : ℕ) : ℕ := color % 256

end Color

/-! ## naqsh-rs/src/graphics/color_int.rs (`impl ColorInt`) -/

namespace ColorInt

/-- `ColorInt::alpha`: `((self >> 24) & 0xff) as u8`. -/
def alpha (c : ℕ) : ℕ := c / 2 ^ 24 % 256

/-- `ColorInt::red`: `((self >> 16) & 0xFF) as u8`. -/
def red (c : ℕ) : ℕ := c / 2 ^ 16 % 256

/-- `ColorInt::green`: `((self >> 8) & 0xFF) as u8`. -/
def green (c : ℕ) : ℕ := c / 2 ^ 8 % 256

/-- `ColorInt::blue`: `(self & 0xFF) as u8`. -/
def blue (c : ℕ) : ℕ := c % 256

end ColorInt

/-! ## naqsh-rs/src/graphics/color_utils.rs -/

namespace ColorUtils

/-- `ColorUtils::constrain(amount, low, high)`. -/
def constrain (amount low high : ℚ) : ℚ :=
  if amount < low then low else min amount high

/-- Truncation of a rational toward zero, as an integer (the rounding Rust's
float-to-float `%` is built on). -/
def truncQ (q : ℚ) : ℤ := if 0 ≤ q then ⌊q⌋ else ⌈q⌉

/-- Rust `f32 % f32`: remainder with the sign of the dividend,
`x - y * trunc(x / y)`. -/
def fmod (x y : ℚ) : ℚ := x - y * (truncQ (x / y) : ℚ)

/-- `ColorUtils::rgb_to_hsl`.  Faithful to the source, including the slip in
the minimum channel: the source computes `min = f32::min(rf, f32::max(gf, bf))`
(inner `max`, not `min`). -/
def rgbToHsl (r g b : ℕ) : Hsl :=
  let rf : ℚ := r / 255
  let gf : ℚ := g / 255
  let bf : ℚ := b / 255
  let mx : ℚ := max rf (max gf bf)
  let mn : ℚ := min rf (max gf bf)
  let delta : ℚ := mx - mn
  let l : ℚ := (mx + mn) / 2
  let h0 : ℚ :=
    if mx = mn then 0
    else if mx = rf then fmod ((gf - bf) / delta) 6
    else if mx = gf then (bf - rf) / delta + 2
    else (rf - gf) / delta + 4
  let s : ℚ := if mx = mn then 0 else delta / (1 - |2 * l - 1|)
  let h1 : ℚ := fmod (h0 * 60) 360
  let h2 : ℚ := if h1 < 0 then h1 + 360 else h1
  (constrain h2 0 360, constrain s 0 1, constrain l 0 1)

/-- The standard min/max-channel HSL derivation the claim describes (C5):
identical to `rgbToHsl` except that the channel minimum is the true minimum
`min rf (min gf bf)`.  Comparison definition, written from the claim's
words. -/
def rgbToHslStandard (r g b : ℕ) : Hsl :=
  let rf : ℚ := r / 255
  let gf : ℚ := g / 255
  let bf : ℚ := b / 255
  let mx : ℚ := max rf (max gf bf)
  let mn : ℚ := min rf (min gf bf)
  let delta : ℚ := mx - mn
  let l : ℚ := (mx + mn) / 2
  let h0 : ℚ :=
    if mx = mn then 0
    else if mx = rf then fmod ((gf - bf) / delta) 6
    else if mx = gf then (bf - rf) / delta + 2
    else (rf - gf) / delta + 4
  let s : ℚ := if mx = mn then 0 else delta / (1 - |2 * l - 1|)
  let h1 : ℚ := fmod (h0 * 60) 360
  let h2 : ℚ := if h1 < 0 then h1 + 360 else h1
  (constrain h2 0 360, constrain s 0 1, constrain l 0 1)

theorem fmod_small (x y : ℚ) (h0 : 0 ≤ x) (hxy : x < y) : fmod x y = x := by
  have hy : 0 < y := lt_of_le_of_lt h0 hxy
  have hfl : ⌊x / y⌋ = 0 := by
    rw [Int.floor_eq_zero_iff]
    constructor
    · exact div_nonneg h0 (le_of_lt hy)
    · rw [div_lt_one hy] at *
      exact hxy
  unfold fmod truncQ
  rw [if_pos (div_nonneg h0 (le_of_lt hy)), hfl]
  simp

/-- `ColorUtils::color_to_hsl`: extracts components with `Color`'s accessors
(including its `blue`) and converts. -/
def colorToHsl (color : ℕ) : Hsl :=
  rgbToHsl (Color.red color) (Color.green color) (Color.blue color)

/-- The sRGB gamma expansion used by `rgb_to_xyz` for one channel;
`pw` stands for `x ↦ f64::powf(x, 2.4)`. -/
def gammaExpand (pw : ℚ → ℚ) (s : ℚ) : ℚ :=
  if s < 4045 / 100000 then s / (1292 / 100) else pw ((s + 55 / 1000) / (1055 / 1000))

/-- `ColorUtils::rgb_to_xyz` (D65 matrix, scaled by 100). -/
def rgbToXyz (pw : ℚ → ℚ) (r g b : ℕ) : ℚ × ℚ × ℚ :=
  let sr := gammaExpand pw (r / 255)
  let sg := gammaExpand pw (g / 255)
  let sb := gammaExpand pw (b / 255)
  (100 * (sr * (4124 / 10000) + sg * (3576 / 10000) + sb * (1805 / 10000)),
   100 * (sr * (2126 / 10000) + sg * (7152 / 10000) + sb * (722 / 10000)),
   100 * (sr * (193 / 10000) + sg * (1192 / 10000) + sb * (9505 / 10000)))

/-- `ColorUtils::calculate_luminance`: the Y component over 100. -/
def calculateLuminance (pw : ℚ → ℚ) (color : ℕ) : ℚ :=
  (rgbToXyz pw (Color.red color) (Color.green color) (Color.blue color)).2.1 / 100

/-- `ColorUtils::set_alpha_component`: `(color & 0x00ffffff) | (alpha << 24)`. -/
def setAlphaComponent (color : ℕ) (a : ℕ) : ℕ := a % 256 * 2 ^ 24 + color % 2 ^ 24

/-- `ColorUtils::composite_alpha`: `0xFF - ((0xFF-bgA)*(0xFF-fgA)) / 0xFF`
(nonnegative i32 division = Nat division). -/
def compositeAlpha (fgA bgA : ℕ) : ℕ := 255 - (255 - bgA) * (255 - fgA) / 255

/-- `ColorUtils::composite_component`, including the trailing `as u8` cast. -/
def compositeComponent (fgC fgA bgC bgA a : ℕ) : ℕ :=
  if a = 0 then 0
  else (255 * fgC * fgA + bgC * bgA * (255 - fgA)) / (a * 255) % 256

/-- `ColorUtils::composite_colors`: channels are fetched with `Color`'s
accessors (so the blue channel reads the green byte, per `Color.blue`). -/
def compositeColors (fg bg : ℕ) : ℕ :=
  let bgA := Color.alpha bg
  let fgA := Color.alpha fg
  let a := compositeAlpha fgA bgA
  Color.argb a
    (compositeComponent (Color.red fg) fgA (Color.red bg) bgA a)
    (compositeComponent (Color.green fg) fgA (Color.green bg) bgA a)
    (compositeComponent (Color.blue fg) fgA (Color.blue bg) bgA a)

/-- The claim's compositing operator (C4): the same integer formulas applied
to the actual per-channel components, i.e. with the blue channel read from
the low byte.  Comparison definition, written from the claim's words. -/
def compositeColorsClaim (fg bg : ℕ) : ℕ :=
  let bgA := Color.alpha bg
  let fgA := Color.alpha fg
  let a := compositeAlpha fgA bgA
  Color.argb a
    (compositeComponent (Color.red fg) fgA (Color.red bg) bgA a)
    (compositeComponent (Color.green fg) fgA (Color.green bg) bgA a)
    (compositeComponent (Color.blueDocumented fg) fgA (Color.blueDocumented bg) bgA a)

/-- The contrast computation of `calculate_contrast` after the opacity guard
has passed: composite a translucent foreground, then the WCAG ratio. -/
def contrastOpaque (pw : ℚ → ℚ) (fg bg : ℕ) : ℚ :=
  let fg' := if Color.alpha fg < 255 then compositeColors fg bg else fg
  let l1 := calculateLuminance pw fg' + 5 / 100
  let l2 := calculateLuminance pw bg + 5 / 100
  max l1 l2 / min l1 l2

/-- `ColorUtils::calculate_contrast`: `panic!` (modelled `none`) unless the
background is fully opaque. -/
def calculateContrast (pw : ℚ → ℚ) (fg bg : ℕ) : Option ℚ :=
  if Color.alpha bg ≠ 255 then none else some (contrastOpaque pw fg bg)

/-- Wrapping `u8` subtraction, for `max_alpha - min_alpha` in the search
loop condition. -/
def wsub8 (a b : ℕ) : ℕ := (a + 256 - b) % 256

/-- The `while` loop of `calculate_minimum_alpha`, parameterized by the
contrast value at each candidate alpha (`c t` is
`calculate_contrast(set_alpha_component(fg, t), bg)`).  `min_alpha` and
`max_alpha` are `u8`, so the midpoint `(min_alpha + max_alpha) / 2` and the
window width `max_alpha - min_alpha` are computed modulo 256, as in the
source (Rust release profile; the debug profile aborts on the overflow).
Runs while `num_iterations <= 10` and the wrapped width exceeds 1. -/
def minAlphaSearchGo (c : ℕ → ℚ) (minContrast : ℚ) :
    ℕ → ℕ → ℕ → ℕ
  | 0, _, maxA => maxA
  | fuel + 1, minA, maxA =>
    if 1 < wsub8 maxA minA then
      let t := (minA + maxA) % 256 / 2
      minAlphaSearchGo c minContrast fuel (if c t < minContrast then t else minA)
        (if c t < minContrast then maxA else t)
    else maxA

/-- The bisection phase of `calculate_minimum_alpha`, started at
`num_iterations = 0`, `min_alpha = 0`, `max_alpha = 255`; the loop guard
`num_iterations <= 10` admits 11 executions of the body, here the structural
fuel `11`. -/
def minAlphaSearch (c : ℕ → ℚ) (minContrast : ℚ) : ℕ :=
  minAlphaSearchGo c minContrast 11 0 255

/-- `ColorUtils::calculate_minimum_alpha`: `panic!` (`none`) on a non-opaque
background; `-1` when the fully opaque foreground misses `minContrast`;
otherwise the loop's final `max_alpha`. -/
def calculateMinimumAlpha (pw : ℚ → ℚ) (fg bg : ℕ) (minContrast : ℚ) : Option ℤ :=
  if Color.alpha bg ≠ 255 then none
  else
    let c : ℕ → ℚ := fun t => contrastOpaque pw (setAlphaComponent fg t) bg
    if c 255 < minContrast then some (-1)
    else some (minAlphaSearch c minContrast : ℤ)

end ColorUtils

/-! ## src/graphics/palette.rs: `DefaultFilter` -/

namespace DefaultFilter

/-- `DefaultFilter::BLACK_MAX_LIGHTNESS = 0.05`. -/
def BLACK_MAX_LIGHTNESS : ℚ := 5 / 100

/-- `DefaultFilter::WHITE_MIN_LIGHTNESS = 0.95`. -/
def WHITE_MIN_LIGHTNESS : ℚ := 95 / 100

/-- `DefaultFilter::is_black`: `hsl[2] <= BLACK_MAX_LIGHTNESS`. -/
def isBlack (hsl : Hsl) : Bool := hsl.2.2 ≤ BLACK_MAX_LIGHTNESS

/-- `DefaultFilter::is_white`: the source compares `hsl[2] <=
WHITE_MIN_LIGHTNESS` (less-or-equal, not greater-or-equal). -/
def isWhite (hsl : Hsl) : Bool := hsl.2.2 ≤ WHITE_MIN_LIGHTNESS

/-- `DefaultFilter::is_near_red_iline`:
`hsl[0] >= 10 && hsl[0] <= 37 && hsl[1] <= 0.82`. -/
def isNearRedILine (hsl : Hsl) : Bool :=
  10 ≤ hsl.1 && hsl.1 ≤ 37 && hsl.2.1 ≤ 82 / 100

/-- `DefaultFilter::is_allowed` (the `rgb` argument is ignored by the
source body). -/
def isAllowed (rgb : ℕ) (hsl : Hsl) : Bool :=
  let _ := rgb
  !isWhite hsl && !isBlack hsl && !isNearRedILine hsl

end DefaultFilter

/-! ## src/graphics/palette.rs: `Swatch` -/

/-- `Swatch` (src/graphics/palette.rs).  The lazily-generated text-color
cache fields are part of the struct. -/
structure Swatch where
  red : ℕ
  green : ℕ
  blue : ℕ
  rgb : ℕ
  population : ℤ
  generatedTextColors : Bool := false
  titleTextColor : ℕ := 0
  bodyTextColor : ℕ := 0
  hsl : Hsl := (0, 0, 0)
  deriving Repr, DecidableEq

namespace Swatch

/-- `Swatch::MIN_CONTRAST_TITLE_TEXT = 3.0`. -/
def MIN_CONTRAST_TITLE_TEXT : ℚ := 3

/-- `Swatch::MIN_CONTRAST_BODY_TEXT = 4.5`. -/
def MIN_CONTRAST_BODY_TEXT : ℚ := 9 / 2

/-- `Swatch::new(color, population)`: components extracted with `Color`'s
accessors (so `blue` stores the green byte, per `Color.blue`). -/
def new (color : ℕ) (population : ℤ) : Swatch :=
  { red := Color.red color
    green := Color.green color
    blue := Color.blue color
    rgb := color
    population := population }

/-- `Swatch::get_hsl`: recomputes `rgb_to_hsl` from the stored components
into the cache field and returns it. -/
def getHsl (s : Swatch) : Hsl := ColorUtils.rgbToHsl s.red s.green s.blue

/-- Rust `as u8` on an `i32`: wrap modulo 256 (so `-1 as u8 = 255`). -/
def asU8 (z : ℤ) : ℕ := (z % 256).toNat

/-- `Swatch::ensure_text_colors_generated`.  `none` models the `panic!`
inside `calculate_minimum_alpha` when the swatch color is not opaque. -/
def ensureTextColorsGenerated (pw : ℚ → ℚ) (s : Swatch) : Option Swatch :=
  if s.generatedTextColors then some s
  else do
    let lightBodyAlpha ←
      ColorUtils.calculateMinimumAlpha pw Color.WHITE s.rgb MIN_CONTRAST_BODY_TEXT
    let lightTitleAlpha ←
      ColorUtils.calculateMinimumAlpha pw Color.WHITE s.rgb MIN_CONTRAST_TITLE_TEXT
    if lightBodyAlpha ≠ -1 ∧ lightTitleAlpha ≠ -1 then
      some { s with
        bodyTextColor := ColorUtils.setAlphaComponent Color.WHITE (asU8 lightBodyAlpha)
        titleTextColor := ColorUtils.setAlphaComponent Color.WHITE (asU8 lightTitleAlpha)
        generatedTextColors := true }
    else do
      let darkBodyAlpha ←
        ColorUtils.calculateMinimumAlpha pw Color.BLACK s.rgb MIN_CONTRAST_BODY_TEXT
      let darkTitleAlpha ←
        ColorUtils.calculateMinimumAlpha pw Color.BLACK s.rgb MIN_CONTRAST_TITLE_TEXT
      if darkBodyAlpha ≠ -1 ∧ darkTitleAlpha ≠ -1 then
        some { s with
          bodyTextColor := ColorUtils.setAlphaComponent Color.BLACK (asU8 darkBodyAlpha)
          titleTextColor := ColorUtils.setAlphaComponent Color.BLACK (asU8 darkTitleAlpha)
          generatedTextColors := true }
      else
        some { s with
          bodyTextColor :=
            if lightBodyAlpha ≠ -1 then
              ColorUtils.setAlphaComponent Color.WHITE (asU8 lightBodyAlpha)
            else
              ColorUtils.setAlphaComponent Color.BLACK (asU8 darkBodyAlpha)
          titleTextColor :=
            if lightTitleAlpha ≠ -1 then
              ColorUtils.setAlphaComponent Color.WHITE (asU8 lightTitleAlpha)
            else
              ColorUtils.setAlphaComponent Color.BLACK (asU8 darkTitleAlpha)
          generatedTextColors := true }

/-- `Swatch::get_title_text_color`: memoized accessor. -/
def getTitleTextColor (pw : ℚ → ℚ) (s : Swatch) : Option (ℕ × Swatch) := do
  let s' ← ensureTextColorsGenerated pw s
  some (s'.titleTextColor, s')

/-- `Swatch::get_body_text_color`: memoized accessor. -/
def getBodyTextColor (pw : ℚ → ℚ) (s : Swatch) : Option (ℕ × Swatch) := do
  let s' ← ensureTextColorsGenerated pw s
  some (s'.bodyTextColor, s')

end Swatch

/-! ## naqsh-rs/src/graphics/target.rs -/

/-- Kind of target to build (`TargetKind`). -/
inductive TargetKind where
  | LightVibrant | Vibrant | DarkVibrant | LightMuted | Muted | DarkMuted
  deriving Repr, DecidableEq

/-- `Target`: the `[min, target, max]` arrays and the `[sat, luma, pop]`
weight array as triples. -/
structure Target where
  saturationTargets : ℚ × ℚ × ℚ
  lightnessTargets : ℚ × ℚ × ℚ
  weights : ℚ × ℚ × ℚ
  isExclusive : Bool
  deriving Repr, DecidableEq

namespace Target

/-- `Target::default()`: default ranges `[0, 0.5, 1]` and weights
`[0.24, 0.52, 0.24]`, exclusive. -/
def default : Target :=
  { saturationTargets := (0, 1 / 2, 1)
    lightnessTargets := (0, 1 / 2, 1)
    weights := (24 / 100, 52 / 100, 24 / 100)
    isExclusive := true }

/-- `Target::normalize_weights`: sum the positive weights; if the sum is
nonzero, divide each positive weight by it, leaving the others unchanged. -/
def normalizeWeights (w : ℚ × ℚ × ℚ) : ℚ × ℚ × ℚ :=
  let sum := (if 0 < w.1 then w.1 else 0) + (if 0 < w.2.1 then w.2.1 else 0) +
    (if 0 < w.2.2 then w.2.2 else 0)
  if sum ≠ 0 then
    (if 0 < w.1 then w.1 / sum else w.1,
     if 0 < w.2.1 then w.2.1 / sum else w.2.1,
     if 0 < w.2.2 then w.2.2 / sum else w.2.2)
  else w

/-- `Target::new(kind)`: the canonical profile constants applied over the
defaults. -/
def new (kind : TargetKind) : Target :=
  let t := default
  match kind with
  | .LightVibrant =>
      { t with lightnessTargets := (55 / 100, 74 / 100, 1),
               saturationTargets := (35 / 100, 1, 1) }
  | .Vibrant =>
      { t with lightnessTargets := (30 / 100, 50 / 100, 70 / 100),
               saturationTargets := (35 / 100, 1, 1) }
  | .DarkVibrant =>
      { t with lightnessTargets := (0, 26 / 100, 45 / 100),
               saturationTargets := (35 / 100, 1, 1) }
  | .LightMuted =>
      { t with lightnessTargets := (55 / 100, 74 / 100, 1),
               saturationTargets := (0, 30 / 100, 40 / 100) }
  | .Muted =>
      { t with lightnessTargets := (30 / 100, 50 / 100, 70 / 100),
               saturationTargets := (0, 30 / 100, 40 / 100) }
  | .DarkMuted =>
      { t with lightnessTargets := (0, 26 / 100, 45 / 100),
               saturationTargets := (0, 30 / 100, 40 / 100) }

end Target

/-- `TargetBuilder`: wraps a working `Target`. -/
structure TargetBuilder where
  target : Target
  deriving Repr, DecidableEq

namespace TargetBuilder

/-- `TargetBuilder::new(kind)`. -/
def new (kind : TargetKind) : TargetBuilder := ⟨Target.new kind⟩

/-- `TargetBuilder::set_saturation_weight`. -/
def setSaturationWeight (b : TargetBuilder) (w : ℚ) : TargetBuilder :=
  ⟨{ b.target with weights := (w, b.target.weights.2.1, b.target.weights.2.2) }⟩

/-- `TargetBuilder::set_lightness_weight`. -/
def setLightnessWeight (b : TargetBuilder) (w : ℚ) : TargetBuilder :=
  ⟨{ b.target with weights := (b.target.weights.1, w, b.target.weights.2.2) }⟩

/-- `TargetBuilder::set_population_weight`. -/
def setPopulationWeight (b : TargetBuilder) (w : ℚ) : TargetBuilder :=
  ⟨{ b.target with weights := (b.target.weights.1, b.target.weights.2.1, w) }⟩

/-- `TargetBuilder::build`: returns the working target as-is (no
normalization call). -/
def build (b : TargetBuilder) : Target := b.target

end TargetBuilder

/-! ## src/graphics/color_cut_quantizer.rs -/

/-- A quantization filter (`Box<dyn Filter>`): `is_allowed` over the RGB888
color and its HSL representation. -/
abbrev QFilter := ℕ → Hsl → Bool

/-- Rounding of `f32::round` (half away from zero), for the box averages. -/
def ratRound (q : ℚ) : ℤ := if 0 ≤ q then ⌊q + 1 / 2⌋ else -⌊-q + 1 / 2⌋

namespace ColorCutQuantizer

/-- `QUANTIZE_WORD_WIDTH = 5`. -/
def QUANTIZE_WORD_WIDTH : ℕ := 5

/-- `ColorCutQuantizer::modify_word_width`: shift up when widening, shift
down keeping the most significant bits when narrowing, then mask to the
target width. -/
def modifyWordWidth (value currentWidth targetWidth : ℕ) : ℕ :=
  if currentWidth < targetWidth then
    value * 2 ^ (targetWidth - currentWidth) % 2 ^ targetWidth
  else
    value / 2 ^ (currentWidth - targetWidth) % 2 ^ targetWidth

/-- `ColorCutQuantizer::quantized_red`:
`(color >> (2 * QUANTIZE_WORD_WIDTH)) & QUANTIZE_WORD_MASK`. -/
def quantizedRed (color : ℕ) : ℕ := color / 2 ^ 10 % 32

/-- `ColorCutQuantizer::quantized_green`:
`(color >> QUANTIZE_WORD_WIDTH) & QUANTIZE_WORD_MASK`. -/
def quantizedGreen (color : ℕ) : ℕ := color / 2 ^ 5 % 32

/-- `ColorCutQuantizer::quantized_blue`: the source reads
`color >> & QUANTIZE_WORD_MASK`, which parses as a right shift by the mask
value 31 (there is no masking `&`), so on the nonnegative quantized colors
this is `color / 2^31`, i.e. always 0. -/
def quantizedBlue (color : ℕ) : ℕ := color / 2 ^ 31

/-- `ColorCutQuantizer::quantize_from_rgb888` (component extraction uses
`Color`'s accessors, hence `Color.blue`). -/
def quantizeFromRgb888 (color : ℕ) : ℕ :=
  modifyWordWidth (Color.red color) 8 QUANTIZE_WORD_WIDTH * 2 ^ 10 +
    modifyWordWidth (Color.green color) 8 QUANTIZE_WORD_WIDTH * 2 ^ 5 +
    modifyWordWidth (Color.blue color) 8 QUANTIZE_WORD_WIDTH

/-- `ColorCutQuantizer::approximate_to_rgb888_1`: widen each reduced channel
back to 8 bits and pack with `Color::rgb`. -/
def approximateToRgb888_1 (r g b : ℕ) : ℕ :=
  Color.rgb (modifyWordWidth r QUANTIZE_WORD_WIDTH 8)
    (modifyWordWidth g QUANTIZE_WORD_WIDTH 8)
    (modifyWordWidth b QUANTIZE_WORD_WIDTH 8)

/-- `ColorCutQuantizer::approximate_to_rgb888_2`. -/
def approximateToRgb888_2 (color : ℕ) : ℕ :=
  approximateToRgb888_1 (quantizedRed color) (quantizedGreen color) (quantizedBlue color)

/-- `ColorCutQuantizer::should_ignore_color_3`: true when some filter
rejects the color. -/
def shouldIgnoreColor3 (filters : List QFilter) (rgb : ℕ) (hsl : Hsl) : Bool :=
  filters.any (fun f => !f rgb hsl)

/-- `ColorCutQuantizer::should_ignore_color_1`: expand the reduced color,
convert to HSL, and consult the filters. -/
def shouldIgnoreColor1 (filters : List QFilter) (color565 : ℕ) : Bool :=
  let rgb := approximateToRgb888_2 color565
  shouldIgnoreColor3 filters rgb (ColorUtils.colorToHsl rgb)

/-- `ColorCutQuantizer::should_ignore_color_2`: consult the filters on a
swatch's color and HSL. -/
def shouldIgnoreColor2 (filters : List QFilter) (s : Swatch) : Bool :=
  shouldIgnoreColor3 filters s.rgb s.getHsl

/-- The quantizer's working arrays: `m_colors` (distinct reduced colors)
and `m_histogram`. -/
structure QState where
  colors : List ℕ
  histogram : List ℕ
  deriving Repr, DecidableEq

/-- `hist[q] += 1`. -/
def bumpAt (l : List ℕ) (i : ℕ) : List ℕ := l.set i (l.getD i 0 + 1)

/-- The histogram-building loop of the constructor: quantize each pixel and
bump its bucket (every quantized color is below `2^15`, the histogram
length). -/
def buildHist : List ℕ → List ℕ → List ℕ
  | [], hist => hist
  | p :: rest, hist => buildHist rest (bumpAt hist (quantizeFromRgb888 p))

/-- The body of the distinct-color counting loop, with the processed prefix
accumulated in reverse. -/
def countLoopGo (filters : List QFilter) : List ℕ → ℕ → List ℕ → ℕ → List ℕ × ℕ
  | [], _, accRev, cnt => (accRev.reverse, cnt)
  | h :: rest, c, accRev, cnt =>
    let h' := if h > 0 && shouldIgnoreColor1 filters c then 0 else h
    countLoopGo filters rest (c + 1) (h' :: accRev) (cnt + if h' > 0 then 1 else 0)

/-- The distinct-color counting loop of the constructor: zero out buckets
whose representative color a filter rejects, and count the buckets left
positive. -/
def countLoop (filters : List QFilter) (hist : List ℕ) : List ℕ × ℕ :=
  countLoopGo filters hist 0 [] 0

/-- The distinct-color copying loop of the constructor, faithful to the
source order `distinct_color_index += 1; colors[distinct_color_index] =
color`: the index is incremented before the write, and the write is
bounds-checked (`none` models the out-of-bounds panic). -/
def copyLoop : List ℕ → ℕ → ℕ → List ℕ → Option (List ℕ)
  | [], _, _, cols => some cols
  | h :: rest, c, idx, cols =>
    if h > 0 then
      if idx + 1 < cols.length then copyLoop rest (c + 1) (idx + 1) (cols.set (idx + 1) c)
      else none
    else copyLoop rest (c + 1) idx cols

/-- `Vbox`: index range into the sorted color array plus fitted bounds and
population. -/
structure Vbox where
  lower : ℤ
  upper : ℤ
  population : ℤ
  minRed : ℤ
  maxRed : ℤ
  minGreen : ℤ
  maxGreen : ℤ
  minBlue : ℤ
  maxBlue : ℤ
  deriving Repr, DecidableEq

namespace Vbox

/-- `Vbox::get_volume`. -/
def getVolume (v : Vbox) : ℤ :=
  (v.maxRed - v.minRed + 1) * (v.maxGreen - v.minGreen + 1) * (v.maxBlue - v.minBlue + 1)

/-- `Vbox::get_color_count`. -/
def getColorCount (v : Vbox) : ℤ := 1 + v.upper - v.lower

/-- `Vbox::can_split`. -/
def canSplit (v : Vbox) : Bool := 1 < v.getColorCount

end Vbox

/-- Read `colors[i]` for an `i32` index, `none` on out-of-bounds (panic). -/
def colorAt (colors : List ℕ) (i : ℤ) : Option ℕ :=
  if 0 ≤ i then colors.get? i.toNat else none

/-- Accumulator pass of `Vbox::fit_box`: population count and per-channel
reduced minima/maxima over `colors[lower..=upper]`. -/
def fitBoxGo (colors hist : List ℕ) :
    ℕ → ℤ → ℤ × ℤ × ℤ × ℤ × ℤ × ℤ × ℤ → Option (ℤ × ℤ × ℤ × ℤ × ℤ × ℤ × ℤ)
  | 0, _, acc => some acc
  | n + 1, i, acc => do
    let color ← colorAt colors i
    let hval ← hist.get? color
    let (count, minR, maxR, minG, maxG, minB, maxB) := acc
    let r : ℤ := quantizedRed color
    let g : ℤ := quantizedGreen color
    let b : ℤ := quantizedBlue color
    fitBoxGo colors hist n (i + 1)
      (count + hval, min minR r, max maxR r, min minG g, max maxG g,
        min minB b, max maxB b)

/-- `Vbox::new` / `Vbox::fit_box`: build a box over `[lower, upper]` with
fitted bounds (initial minima `i32::MAX`, maxima `i32::MIN`).  The `while
i <= upper` loop from `i = lower` runs exactly `(upper + 1 - lower).toNat`
times, the structural fuel. -/
def fitBox (st : QState) (lower upper : ℤ) : Option Vbox := do
  let (count, minR, maxR, minG, maxG, minB, maxB) ←
    fitBoxGo st.colors st.histogram (upper + 1 - lower).toNat lower
      (0, 2147483647, -2147483648, 2147483647, -2147483648, 2147483647, -2147483648)
  some ⟨lower, upper, count, minR, maxR, minG, maxG, minB, maxB⟩

/-- The sort dimension (`Component`). -/
inductive Component where
  | Red | Green | Blue
  deriving Repr, DecidableEq

/-- `Vbox::get_longest_color_dimension`, faithful to the source's condition
`red_length >= green_length && red_length >= green_length` (the blue length
is never compared in the red branch). -/
def getLongestColorDimension (v : Vbox) : Component :=
  let redLength := v.maxRed - v.minRed
  let greenLength := v.maxGreen - v.minGreen
  let blueLength := v.maxBlue - v.minBlue
  if redLength ≥ greenLength ∧ redLength ≥ greenLength then .Red
  else if greenLength ≥ redLength ∧ greenLength ≥ blueLength then .Green
  else .Blue

/-- One element rewrite of `modify_significant_octet` for the Green swap
(RGB ↔ GRB). -/
def swapToGreen (color : ℕ) : ℕ :=
  quantizedGreen color * 2 ^ 10 + quantizedRed color * 2 ^ 5 + quantizedBlue color

/-- One element rewrite of `modify_significant_octet` for the Blue swap
(RGB ↔ BGR). -/
def swapToBlue (color : ℕ) : ℕ :=
  quantizedBlue color * 2 ^ 10 + quantizedGreen color * 2 ^ 5 + quantizedRed color

/-- The index loop of `modify_significant_octet`: rewrite
`colors[lower..=upper]` with `f`, `none` on an out-of-bounds index. -/
def mapRangeGo (f : ℕ → ℕ) : ℕ → ℤ → List ℕ → Option (List ℕ)
  | 0, _, cur => some cur
  | n + 1, i, cur => do
    let c ← colorAt cur i
    mapRangeGo f n (i + 1) (cur.set i.toNat (f c))

/-- `ColorCutQuantizer::modify_significant_octet` (the index loop runs
`(upper + 1 - lower).toNat` times). -/
def modifySignificantOctet (colors : List ℕ) (dim : Component) (lower upper : ℤ) :
    Option (List ℕ) :=
  match dim with
  | .Red => some colors
  | .Green => mapRangeGo swapToGreen (upper + 1 - lower).toNat lower colors
  | .Blue => mapRangeGo swapToBlue (upper + 1 - lower).toNat lower colors

/-- Ascending insertion into a sorted list (for the sub-range `sort`). -/
def insertAsc (x : ℕ) : List ℕ → List ℕ
  | [] => [x]
  | y :: ys => if x ≤ y then x :: y :: ys else y :: insertAsc x ys

/-- Ascending sort of a list of naturals (the semantics of `slice::sort`
under the total order on the re-encoded colors). -/
def sortAsc (l : List ℕ) : List ℕ := l.foldr insertAsc []

/-- Sort `colors[lower..upper+1]` in place; `none` when the range is
invalid for the slice (`get_mut(..).unwrap()` panics). -/
def sortRange (colors : List ℕ) (lower upper : ℤ) : Option (List ℕ) :=
  if 0 ≤ lower ∧ lower ≤ upper + 1 ∧ (upper + 1).toNat ≤ colors.length then
    let lo := lower.toNat
    let hi := (upper + 1).toNat
    some (colors.take lo ++ sortAsc ((colors.drop lo).take (hi - lo)) ++ colors.drop hi)
  else none

/-- The accumulation walk of `Vbox::find_split_point`: first index at which
the running population reaches the midpoint, clamped to `upper - 1`;
falls through to `lower`. -/
def splitWalkGo (colors hist : List ℕ) (lower upper midpoint : ℤ) :
    ℕ → ℤ → ℤ → Option ℤ
  | 0, _, _ => some lower
  | n + 1, i, count => do
    let c ← colorAt colors i
    let hval ← hist.get? c
    let count' := count + hval
    if count' ≥ midpoint then some (min (upper - 1) i)
    else splitWalkGo colors hist lower upper midpoint n (i + 1) count'

/-- `Vbox::find_split_point`: re-encode along the longest dimension, sort
the sub-range, restore the encoding, then walk to the population midpoint.
Returns the updated color array together with the split index. -/
def findSplitPoint (st : QState) (v : Vbox) : Option (QState × ℤ) := do
  let dim := getLongestColorDimension v
  let colors1 ← modifySignificantOctet st.colors dim v.lower v.upper
  let colors2 ← sortRange colors1 v.lower v.upper
  let colors3 ← modifySignificantOctet colors2 dim v.lower v.upper
  let midpoint := v.population / 2
  let sp ← splitWalkGo colors3 st.histogram v.lower v.upper midpoint
    (v.upper + 1 - v.lower).toNat v.lower 0
  some ({ st with colors := colors3 }, sp)

/-- `Vbox::split_box`: `panic!` (`none`) on an unsplittable box; otherwise
the new box spans `[split_point, upper + 1]` (as in the source) and the
shrunk original spans `[lower, split_point]`, both refitted. -/
def splitBox (st : QState) (v : Vbox) : Option (QState × Vbox × Vbox) := do
  if ¬ v.canSplit then none
  else
    let (st', sp) ← findSplitPoint st v
    let newbox ← fitBox st' sp (v.upper + 1)
    let shrunk ← fitBox st' v.lower sp
    some (st', shrunk, newbox)

/-- Pop a maximum-volume box from the queue (the `BinaryHeap` pop; ties are
broken by an arbitrary but fixed rule, as in the heap). -/
def popMaxVolume : List Vbox → Option (Vbox × List Vbox)
  | [] => none
  | v :: rest =>
    match popMaxVolume rest with
    | none => some (v, [])
    | some (m, others) =>
      if m.getVolume ≤ v.getVolume then some (v, m :: others) else some (m, v :: others)

theorem popMaxVolume_ne_none (a : Vbox) (as : List Vbox) :
    popMaxVolume (a :: as) ≠ none := by
  simp only [popMaxVolume]
  rcases popMaxVolume as with _ | ⟨m, others⟩
  · simp
  · by_cases hv : m.getVolume ≤ a.getVolume <;> simp [hv]

theorem popMaxVolume_length (q : List Vbox) (v : Vbox) (rest : List Vbox)
    (h : popMaxVolume q = some (v, rest)) : rest.length + 1 = q.length := by
  induction q generalizing v rest with
  | nil => simp [popMaxVolume] at h
  | cons a as ih =>
    simp only [popMaxVolume] at h
    rcases hm : popMaxVolume as with _ | ⟨m, others⟩
    · rw [hm] at h
      cases as with
      | nil => simp at h; simp [← h.2]
      | cons b bs => exact absurd hm (popMaxVolume_ne_none b bs)
    · rw [hm] at h
      have := ih m others hm
      by_cases hv : m.getVolume ≤ a.getVolume <;> simp [hv] at h <;>
        simp [← h.2, ← this]

/-- The loop body of `split_boxes`, on structural fuel. -/
def splitBoxesGo : ℕ → QState → List Vbox → ℕ → Option (QState × List Vbox)
  | 0, st, queue, _ => some (st, queue)
  | fuel + 1, st, queue, maxSize =>
    if queue.length < maxSize then
      match popMaxVolume queue with
      | none => some (st, queue)
      | some (v, rest) =>
        match splitBox st v with
        | none => none
        | some (st', shrunk, newbox) =>
          splitBoxesGo fuel st' (shrunk :: newbox :: rest) maxSize
    else some (st, queue)

/-- `ColorCutQuantizer::split_boxes`: pop and split until the queue holds
`max_size` boxes; a failed split (the `panic!` inside `split_box` or an
out-of-bounds read) aborts (`none`).  Each loop iteration requires
`queue.len() < max_size` and grows the queue by exactly one box, so
`max_size` rounds of structural fuel always cover the loop. -/
def splitBoxes (st : QState) (queue : List Vbox) (maxSize : ℕ) :
    Option (QState × List Vbox) :=
  splitBoxesGo maxSize st queue maxSize

/-- The channel-sum walk of `Vbox::get_average_color`. -/
def avgGo (colors hist : List ℕ) :
    ℕ → ℤ → ℤ × ℤ × ℤ × ℤ → Option (ℤ × ℤ × ℤ × ℤ)
  | 0, _, acc => some acc
  | n + 1, i, acc => do
    let c ← colorAt colors i
    let hval ← hist.get? c
    let (pop, rs, gs, bs) := acc
    avgGo colors hist n (i + 1)
      (pop + hval, rs + hval * quantizedRed c, gs + hval * quantizedGreen c,
        bs + hval * quantizedBlue c)

/-- `Vbox::get_average_color`: population-weighted rounded channel means,
expanded back to RGB888.  A zero total population makes the float means NaN
and the `as i32` casts 0; the rational model divides by zero to 0, which
rounds to 0, matching. -/
def getAverageColor (st : QState) (v : Vbox) : Option Swatch := do
  let (pop, rs, gs, bs) ←
    avgGo st.colors st.histogram (v.upper + 1 - v.lower).toNat v.lower (0, 0, 0, 0)
  let redMean := ratRound ((rs : ℚ) / (pop : ℚ))
  let greenMean := ratRound ((gs : ℚ) / (pop : ℚ))
  let blueMean := ratRound ((bs : ℚ) / (pop : ℚ))
  some (Swatch.new (approximateToRgb888_1 redMean.toNat greenMean.toNat blueMean.toNat) pop)

/-- `ColorCutQuantizer::generate_average_colors`: average each box, dropping
swatches the filters reject. -/
def generateAverageColors (filters : List QFilter) (st : QState) :
    List Vbox → Option (List Swatch)
  | [] => some []
  | v :: rest => do
    let sw ← getAverageColor st v
    let tail ← generateAverageColors filters st rest
    if shouldIgnoreColor2 filters sw then some tail else some (sw :: tail)

/-- `ColorCutQuantizer::quantize_pixels`.  The constructor never assigns
`m_colors`/`m_histogram`, so this always runs on the default empty vectors:
`self.m_colors.len() - 1` is a `usize` underflow (abort in debug; in release
the wrapped index makes the initial `fit_box` read out of bounds), modelled
by `none` on an empty color array. -/
def quantizePixels (filters : List QFilter) (st : QState) (maxColors : ℤ) :
    Option (List Swatch) :=
  if st.colors.isEmpty then none
  else do
    let first ← fitBox st 0 (st.colors.length - 1 : ℤ)
    let (st', queue) ← splitBoxes st [first] maxColors.toNat
    generateAverageColors filters st' queue

/-- `ColorCutQuantizer::new`, returning the quantized swatch list
(`m_quantized_colors`): build and filter the histogram, copy out the
distinct colors, then either emit one swatch per distinct color or fall
through to `quantize_pixels` (which sees the never-assigned empty
`m_colors`). -/
def newQuantizer (pixels : List ℕ) (maxColors : ℤ) (filters : List QFilter) :
    Option (List Swatch) :=
  let hist0 := buildHist pixels (List.replicate 32768 0)
  let pair := countLoop filters hist0
  match copyLoop pair.1 0 0 (List.replicate pair.2 0) with
  | none => none
  | some colors =>
    if (pair.2 : ℤ) ≤ maxColors then
      some (colors.map fun c =>
        Swatch.new (approximateToRgb888_2 c) (pair.1.getD c 0 : ℤ))
    else quantizePixels filters ⟨[], []⟩ maxColors

end ColorCutQuantizer

/-! ## Helper lemmas for the histogram computations -/

theorem listSet_append_left {α : Type} (l1 l2 : List α) (i : ℕ) (b : α)
    (h : i < l1.length) : (l1 ++ l2).set i b = l1.set i b ++ l2 := by
  induction l1 generalizing i with
  | nil => simp at h
  | cons a as ih =>
    cases i with
    | zero => simp
    | succ j =>
      have h' : j < as.length := by simp at h; omega
      show a :: (as ++ l2).set j b = a :: (as.set j b ++ l2)
      rw [ih j h']

theorem listSet_append_right {α : Type} (l1 l2 : List α) (i : ℕ) (b : α) :
    (l1 ++ l2).set (l1.length + i) b = l1 ++ l2.set i b := by
  induction l1 with
  | nil => simp
  | cons a as ih => simpa [List.length_cons, Nat.succ_add] using ih

theorem listGetD_append_left {α : Type} (l1 l2 : List α) (i : ℕ) (d : α)
    (h : i < l1.length) : (l1 ++ l2).getD i d = l1.getD i d := by
  induction l1 generalizing i with
  | nil => simp at h
  | cons a as ih =>
    cases i with
    | zero => simp [List.getD]
    | succ j => simpa [List.getD] using ih j (by simpa using Nat.lt_of_succ_lt_succ h)

theorem listGetD_append_right {α : Type} (l1 l2 : List α) (i : ℕ) (d : α) :
    (l1 ++ l2).getD (l1.length + i) d = l2.getD i d := by
  induction l1 with
  | nil => simp
  | cons a as ih => simpa [List.getD, Nat.succ_add] using ih

theorem listGetD_replicate (n i : ℕ) : (List.replicate n (0 : ℕ)).getD i 0 = 0 := by
  induction n generalizing i with
  | zero => simp
  | succ m ih =>
    cases i with
    | zero => simp [List.replicate, List.getD]
    | succ j => simpa [List.replicate, List.getD] using ih j

theorem listSet_replicate (n i b : ℕ) (h : i < n) :
    (List.replicate n (0 : ℕ)).set i b =
      List.replicate i 0 ++ b :: List.replicate (n - (i + 1)) 0 := by
  induction n generalizing i with
  | zero => omega
  | succ m ih =>
    cases i with
    | zero => simp [List.replicate]
    | succ j =>
      have hj : j < m := by omega
      have harith : m + 1 - (j + 1 + 1) = m - (j + 1) := by omega
      show 0 :: (List.replicate m 0).set j b =
        (0 :: List.replicate j 0) ++ b :: List.replicate (m + 1 - (j + 1 + 1)) 0
      rw [harith, ih j hj, List.cons_append]

namespace ColorCutQuantizer

/-- Count of positive buckets, the value `distinct_color_count` tracks. -/
def posCount : List ℕ → ℕ
  | [] => 0
  | h :: rest => (if 0 < h then 1 else 0) + posCount rest

theorem posCount_append (l1 l2 : List ℕ) :
    posCount (l1 ++ l2) = posCount l1 + posCount l2 := by
  induction l1 with
  | nil => simp [posCount]
  | cons a as ih => simp [posCount, ih]; omega

theorem posCount_nil : posCount [] = 0 := rfl

theorem posCount_cons (h : ℕ) (rest : List ℕ) :
    posCount (h :: rest) = (if 0 < h then 1 else 0) + posCount rest := rfl

theorem posCount_replicate (n : ℕ) : posCount (List.replicate n 0) = 0 := by
  induction n with
  | zero => rfl
  | succ m ih => simpa [List.replicate, posCount] using ih

/-- With no filters the counting loop leaves the histogram unchanged and
counts the positive buckets. -/
theorem countLoopGo_nil_filters (hist : List ℕ) :
    ∀ (c : ℕ) (accRev : List ℕ) (cnt : ℕ),
      countLoopGo [] hist c accRev cnt = (accRev.reverse ++ hist, cnt + posCount hist) := by
  induction hist with
  | nil => intro c accRev cnt; simp [countLoopGo, posCount]
  | cons h rest ih =>
    intro c accRev cnt
    have hsi : shouldIgnoreColor1 [] c = false := rfl
    simp only [countLoopGo, hsi, Bool.and_false, Bool.false_eq_true, if_false]
    rw [ih]
    simp only [posCount, List.reverse_cons, List.append_assoc, List.cons_append,
      List.nil_append, Prod.mk.injEq, gt_iff_lt]
    exact ⟨trivial, by omega⟩

theorem countLoop_nil_filters (hist : List ℕ) :
    countLoop [] hist = (hist, posCount hist) := by
  simpa using countLoopGo_nil_filters hist 0 [] 0

theorem countLoop_nil_fst (hist : List ℕ) : (countLoop [] hist).1 = hist :=
  congrArg Prod.fst (countLoop_nil_filters hist)

theorem countLoop_nil_snd (hist : List ℕ) : (countLoop [] hist).2 = posCount hist :=
  congrArg Prod.snd (countLoop_nil_filters hist)

/-- The cons equation of the copying loop. -/
theorem copyLoop_cons (h : ℕ) (rest : List ℕ) (c idx : ℕ) (cols : List ℕ) :
    copyLoop (h :: rest) c idx cols =
      if h > 0 then
        if idx + 1 < cols.length then copyLoop rest (c + 1) (idx + 1) (cols.set (idx + 1) c)
        else none
      else copyLoop rest (c + 1) idx cols := rfl

/-- The copying loop skips a run of empty buckets. -/
theorem copyLoop_skip_zeros (n : ℕ) :
    ∀ (rest : List ℕ) (c idx : ℕ) (cols : List ℕ),
      copyLoop (List.replicate n 0 ++ rest) c idx cols = copyLoop rest (c + n) idx cols := by
  induction n with
  | zero => intro rest c idx cols; simp
  | succ m ih =>
    intro rest c idx cols
    show copyLoop (0 :: (List.replicate m 0 ++ rest)) c idx cols = _
    rw [copyLoop, if_neg (by omega : ¬ (0 : ℕ) > 0), ih]
    have : c + 1 + m = c + (m + 1) := by omega
    rw [this]

/-- The copying loop ignores an all-zero histogram. -/
theorem copyLoop_replicate (n c idx : ℕ) (cols : List ℕ) :
    copyLoop (List.replicate n 0) c idx cols = some cols := by
  have h := copyLoop_skip_zeros n [] c idx cols
  simpa [copyLoop] using h

/-- `bumpAt` on an all-zero histogram plants a single 1. -/
theorem bumpAt_replicate (n i : ℕ) (h : i < n) :
    bumpAt (List.replicate n 0) i =
      List.replicate i 0 ++ 1 :: List.replicate (n - (i + 1)) 0 := by
  unfold bumpAt
  rw [listGetD_replicate, listSet_replicate _ _ _ h]

/-- `bumpAt` at the index of an exposed bucket increments it. -/
theorem bumpAt_at_cons (l1 : List ℕ) (v : ℕ) (l2 : List ℕ) (i : ℕ)
    (hi : i = l1.length) : bumpAt (l1 ++ v :: l2) i = l1 ++ (v + 1) :: l2 := by
  subst hi
  unfold bumpAt
  have hg := listGetD_append_right l1 (v :: l2) 0 0
  simp only [Nat.add_zero] at hg
  rw [hg]
  have hv : (v :: l2).getD 0 0 = v := rfl
  rw [hv]
  have hs := listSet_append_right l1 (v :: l2) 0 (v + 1)
  simp only [Nat.add_zero] at hs
  rw [hs]
  rfl

/-- `bumpAt` below an append boundary acts on the left part. -/
theorem bumpAt_append_left (l1 l2 : List ℕ) (i : ℕ) (h : i < l1.length) :
    bumpAt (l1 ++ l2) i = bumpAt l1 i ++ l2 := by
  unfold bumpAt
  rw [listGetD_append_left _ _ _ _ h, listSet_append_left _ _ _ _ h]

/-- A successful copy returns an array of the original length. -/
theorem copyLoop_length (entries : List ℕ) :
    ∀ (c idx : ℕ) (cols cols' : List ℕ),
      copyLoop entries c idx cols = some cols' → cols'.length = cols.length := by
  induction entries with
  | nil =>
    intro c idx cols cols' h
    simp [copyLoop] at h
    simp [← h]
  | cons e rest ih =>
    intro c idx cols cols' h
    simp only [copyLoop] at h
    by_cases he : 0 < e
    · rw [if_pos he] at h
      by_cases hb : idx + 1 < cols.length
      · rw [if_pos hb] at h
        have := ih (c + 1) (idx + 1) (cols.set (idx + 1) c) cols' h
        simpa using this
      · rw [if_neg hb] at h; exact absurd h (by simp)
    · rw [if_neg he] at h
      exact ih (c + 1) idx cols cols' h

end ColorCutQuantizer

/-! ## Claims -/

namespace ColorCutQuantizer

theorem exq1 : quantizeFromRgb888 0xFFFF0000 = 31744 := by decide

theorem exq2 : quantizeFromRgb888 0xFF00FF00 = 1023 := by decide

theorem exq3 : quantizeFromRgb888 0xFF0000FF = 0 := by decide

theorem exb1 : bumpAt (List.replicate 32768 0) 31744 =
    List.replicate 31744 0 ++ 1 :: List.replicate 1023 0 := by
  rw [bumpAt_replicate _ _ (by norm_num)]

theorem exb2 : bumpAt (List.replicate 31744 0 ++ 1 :: List.replicate 1023 0) 31744 =
    List.replicate 31744 0 ++ 2 :: List.replicate 1023 0 := by
  rw [bumpAt_at_cons _ _ _ _ (by rw [List.length_replicate])]

theorem exb3 : bumpAt (List.replicate 31744 0 ++ 2 :: List.replicate 1023 0) 1023 =
    (List.replicate 1023 0 ++ 1 :: List.replicate 30720 0) ++
      2 :: List.replicate 1023 0 := by
  rw [bumpAt_append_left _ _ _ (by rw [List.length_replicate]; norm_num),
    bumpAt_replicate _ _ (by norm_num)]

theorem exb4 : bumpAt ((List.replicate 1023 0 ++ 1 :: List.replicate 30720 0) ++
    2 :: List.replicate 1023 0) 0 =
    ((1 :: List.replicate 1022 0) ++ 1 :: List.replicate 30720 0) ++
      2 :: List.replicate 1023 0 := by
  rw [bumpAt_append_left _ _ _
      (by rw [List.length_append, List.length_replicate, List.length_cons,
        List.length_replicate]; norm_num),
    bumpAt_append_left _ _ _ (by rw [List.length_replicate]; norm_num),
    bumpAt_replicate _ _ (by norm_num)]
  rw [List.replicate_zero, List.nil_append,
    show (1023 : ℕ) - (0 + 1) = 1022 from by norm_num]

theorem exhist : buildHist [0xFFFF0000, 0xFFFF0000, 0xFF00FF00, 0xFF0000FF]
    (List.replicate 32768 0) =
    1 :: (List.replicate 1022 0 ++
      1 :: (List.replicate 30720 0 ++ 2 :: List.replicate 1023 0)) := by
  simp only [buildHist, exq1, exq2, exq3]
  rw [exb1, exb2, exb3, exb4, List.append_assoc, List.cons_append, List.cons_append]

theorem expos : posCount (1 :: (List.replicate 1022 0 ++
    1 :: (List.replicate 30720 0 ++ 2 :: List.replicate 1023 0))) = 3 := by
  rw [posCount_cons, posCount_append, posCount_replicate, posCount_cons,
    posCount_append, posCount_replicate, posCount_cons, posCount_replicate]
  norm_num

theorem excopy : copyLoop (1 :: (List.replicate 1022 0 ++
    1 :: (List.replicate 30720 0 ++ 2 :: List.replicate 1023 0))) 0 0
    (List.replicate 3 0) = none := by
  rw [copyLoop_cons, if_pos (by norm_num),
    if_pos (by rw [List.length_replicate]; norm_num :
      (0 : ℕ) + 1 < (List.replicate 3 (0:ℕ)).length),
    copyLoop_skip_zeros, copyLoop_cons, if_pos (by norm_num)]
  rw [if_pos (by rw [List.length_set, List.length_replicate]; norm_num :
      (1 : ℕ) + 1 < (((List.replicate 3 (0:ℕ)).set (0 + 1) 0)).length),
    copyLoop_skip_zeros, copyLoop_cons, if_pos (by norm_num)]
  rw [if_neg (by rw [List.length_set, List.length_set, List.length_replicate]; norm_num :
      ¬((2 : ℕ) + 1 <
      ((((List.replicate 3 (0:ℕ)).set (0 + 1) 0)).set (1 + 1) (0 + 1 + 1022)).length))]

end ColorCutQuantizer

open ColorCutQuantizer in
/-- Claim C1: the spec says that when the distinct admissible reduced colors
fit in `max_colors` the quantizer returns one swatch per distinct color — in
particular 3 swatches (red 2, green 1, blue 1) for the 4-pixel example with
`max_colors = 4`.  The code instead aborts: the distinct-color copy loop
increments `distinct_color_index` before writing, so the last distinct color
is written out of bounds.  The model returns `none` on the cited example. -/
theorem C1_quantizer_example_aborts :
    newQuantizer [0xFFFF0000, 0xFFFF0000, 0xFF00FF00, 0xFF0000FF] 4 [] = none := by
  rw [newQuantizer]
  rw [exhist, countLoop_nil_fst, countLoop_nil_snd, expos, excopy]

open ColorCutQuantizer in
/-- Claim C2: the quantizer emits at most `max_colors` swatches.  Part 1:
every successful run of the constructor returns at most `maxColors`
swatches.  Part 2: box splitting never grows the queue beyond
`max(initial size, max_size)` (it stops as soon as the queue holds
`max_size` boxes).  Part 3: the final filter pass only discards swatches,
never adds any. -/
theorem C2_quantizer_bounded :
    (∀ (pixels : List ℕ) (mc : ℤ) (fs : List QFilter) (l : List Swatch),
      newQuantizer pixels mc fs = some l → (l.length : ℤ) ≤ mc) ∧
    (∀ (fuel : ℕ) (st : QState) (q : List Vbox) (ms : ℕ) (st' : QState)
      (q' : List Vbox), splitBoxesGo fuel st q ms = some (st', q') →
      q'.length ≤ max q.length ms) ∧
    (∀ (fs : List QFilter) (st : QState) (boxes : List Vbox) (l : List Swatch),
      generateAverageColors fs st boxes = some l → l.length ≤ boxes.length) := by
  refine ⟨?_, ?_, ?_⟩
  · intro pixels mc fs l h
    simp only [newQuantizer] at h
    rcases hcp : copyLoop (countLoop fs (buildHist pixels (List.replicate 32768 0))).1 0 0
        (List.replicate (countLoop fs (buildHist pixels (List.replicate 32768 0))).2 0)
      with _ | colors
    · rw [hcp] at h
      have h' : (none : Option (List Swatch)) = some l := h
      exact absurd h' (by simp)
    · rw [hcp] at h
      have h' : (if ((countLoop fs (buildHist pixels (List.replicate 32768 0))).2 : ℤ) ≤ mc
          then some (colors.map fun c => Swatch.new (approximateToRgb888_2 c)
            ((countLoop fs (buildHist pixels (List.replicate 32768 0))).1.getD c 0 : ℤ))
          else quantizePixels fs ⟨[], []⟩ mc) = some l := h
      by_cases hle :
          ((countLoop fs (buildHist pixels (List.replicate 32768 0))).2 : ℤ) ≤ mc
      · rw [if_pos hle] at h'
        have hlen := copyLoop_length _ _ _ _ _ hcp
        simp only [Option.some.injEq] at h'
        rw [← h']
        simp only [List.length_map, hlen, List.length_replicate]
        exact hle
      · rw [if_neg hle] at h'
        rw [show quantizePixels fs ⟨[], []⟩ mc = none from rfl] at h'
        exact absurd h' (by simp)
  · intro fuel
    induction fuel with
    | zero =>
      intro st q ms st' q' h
      simp only [splitBoxesGo, Option.some.injEq, Prod.mk.injEq] at h
      rw [← h.2]
      exact le_max_left _ _
    | succ n ih =>
      intro st q ms st' q' h
      simp only [splitBoxesGo] at h
      by_cases hlt : q.length < ms
      · rw [if_pos hlt] at h
        rcases hp : popMaxVolume q with _ | ⟨v, rest⟩
        · rw [hp] at h
          have h' : some (st, q) = some (st', q') := h
          simp only [Option.some.injEq, Prod.mk.injEq] at h'
          rw [← h'.2]
          exact le_max_left _ _
        · rw [hp] at h
          have h2 : (match splitBox st v with
              | none => none
              | some (st2, shrunk, newbox) =>
                splitBoxesGo n st2 (shrunk :: newbox :: rest) ms) = some (st', q') := h
          rcases hs : splitBox st v with _ | ⟨st2, shrunk, newbox⟩
          · rw [hs] at h2
            have h3 : (none : Option (QState × List Vbox)) = some (st', q') := h2
            exact absurd h3 (by simp)
          · rw [hs] at h2
            have h3 : splitBoxesGo n st2 (shrunk :: newbox :: rest) ms =
              some (st', q') := h2
            have hq := popMaxVolume_length q v rest hp
            have := ih st2 (shrunk :: newbox :: rest) ms st' q' h3
            simp only [List.length_cons] at this
            omega
      · rw [if_neg hlt] at h
        have h' : some (st, q) = some (st', q') := h
        simp only [Option.some.injEq, Prod.mk.injEq] at h'
        rw [← h'.2]
        exact le_max_left _ _
  · intro fs st boxes
    induction boxes with
    | nil =>
      intro l h
      simp only [generateAverageColors, Option.some.injEq] at h
      simp [← h]
    | cons v rest ih =>
      intro l h
      simp only [generateAverageColors, Option.bind_eq_bind, bind] at h
      rcases ha : getAverageColor st v with _ | sw
      · rw [ha] at h; simp at h
      · rw [ha] at h
        simp only [Option.some_bind] at h
        rcases ht : generateAverageColors fs st rest with _ | tail
        · rw [ht] at h; simp at h
        · rw [ht] at h
          simp only [Option.some_bind] at h
          have htl := ih tail ht
          by_cases hig : shouldIgnoreColor2 fs sw = true
          · rw [if_pos hig] at h
            simp only [Option.some.injEq] at h
            rw [← h]
            simp only [List.length_cons]
            omega
          · rw [if_neg hig] at h
            simp only [Option.some.injEq] at h
            rw [← h]
            simp only [List.length_cons, List.length_cons]
            omega

open ColorCutQuantizer in
/-- Witness for C2 at concrete inputs: the empty image with `max_colors = 4`
quantizes to the empty swatch list, within the bound; the degenerate
box-split and averaging runs on empty queues stay within their bounds. -/
theorem C2_quantizer_bounded_witness :
    newQuantizer [] 4 [] = some [] ∧
    (([] : List Swatch).length : ℤ) ≤ 4 ∧
    ([] : List Vbox).length ≤ max ([] : List Vbox).length 0 ∧
    ([] : List Swatch).length ≤ ([] : List Vbox).length := by
  have hnil : newQuantizer [] 4 [] = some [] := by
    have hcl : copyLoop (List.replicate 32768 0) 0 0 [] = some [] :=
      copyLoop_replicate 32768 0 0 []
    rw [newQuantizer, show buildHist [] (List.replicate 32768 0) =
        List.replicate 32768 0 from rfl,
      countLoop_nil_fst, countLoop_nil_snd, posCount_replicate, List.replicate_zero, hcl]
    rfl
  refine ⟨hnil, ?_, ?_, ?_⟩
  · exact C2_quantizer_bounded.1 [] 4 [] [] hnil
  · exact C2_quantizer_bounded.2.1 0 ⟨[], []⟩ [] 0 ⟨[], []⟩ [] rfl
  · exact C2_quantizer_bounded.2.2 [] ⟨[], []⟩ [] [] rfl

/-! ### Evaluation lemmas for `calculate_minimum_alpha` -/

section MinimumAlpha

open ColorUtils Color

/-- Branch lemma: `calculate_minimum_alpha` returns the `-1` sentinel when
the fully opaque foreground misses the contrast threshold. -/
theorem cma_neg1 (pw : ℚ → ℚ) (fg bg : ℕ) (m : ℚ)
    (h1 : Color.alpha bg = 255)
    (h2 : contrastOpaque pw (setAlphaComponent fg 255) bg < m) :
    calculateMinimumAlpha pw fg bg m = some (-1) := by
  unfold calculateMinimumAlpha
  rw [if_neg (by simp [h1])]
  show (if contrastOpaque pw (setAlphaComponent fg 255) bg < m then some (-1)
    else some ((minAlphaSearch
      (fun t => contrastOpaque pw (setAlphaComponent fg t) bg) m : ℕ) : ℤ)) = some (-1)
  rw [if_pos h2]

/-- Branch lemma: when the fully opaque foreground reaches the threshold,
`calculate_minimum_alpha` returns the bisection loop's result. -/
theorem cma_search (pw : ℚ → ℚ) (fg bg : ℕ) (m : ℚ)
    (h1 : Color.alpha bg = 255)
    (h2 : ¬ contrastOpaque pw (setAlphaComponent fg 255) bg < m) :
    calculateMinimumAlpha pw fg bg m
      = some ((minAlphaSearch
        (fun t => contrastOpaque pw (setAlphaComponent fg t) bg) m : ℕ) : ℤ) := by
  unfold calculateMinimumAlpha
  rw [if_neg (by simp [h1])]
  show (if contrastOpaque pw (setAlphaComponent fg 255) bg < m then some (-1)
    else some ((minAlphaSearch
      (fun t => contrastOpaque pw (setAlphaComponent fg t) bg) m : ℕ) : ℤ)) = _
  rw [if_neg h2]

/-- One iteration of the bisection loop, low branch (`c t < m`: raise
`min_alpha` to the midpoint). -/
theorem searchGo_step_lt (c : ℕ → ℚ) (m : ℚ) (fuel minA maxA t : ℕ)
    (hg : 1 < wsub8 maxA minA) (ht : (minA + maxA) % 256 / 2 = t) (h : c t < m) :
    minAlphaSearchGo c m (fuel + 1) minA maxA = minAlphaSearchGo c m fuel t maxA := by
  rw [minAlphaSearchGo, if_pos hg]
  show minAlphaSearchGo c m fuel
    (if c ((minA + maxA) % 256 / 2) < m then (minA + maxA) % 256 / 2 else minA)
    (if c ((minA + maxA) % 256 / 2) < m then maxA else (minA + maxA) % 256 / 2)
    = minAlphaSearchGo c m fuel t maxA
  rw [ht, if_pos h, if_pos h]

/-- One iteration of the bisection loop, high branch (`c t ≥ m`: lower
`max_alpha` to the midpoint). -/
theorem searchGo_step_ge (c : ℕ → ℚ) (m : ℚ) (fuel minA maxA t : ℕ)
    (hg : 1 < wsub8 maxA minA) (ht : (minA + maxA) % 256 / 2 = t) (h : ¬ c t < m) :
    minAlphaSearchGo c m (fuel + 1) minA maxA = minAlphaSearchGo c m fuel minA t := by
  rw [minAlphaSearchGo, if_pos hg]
  show minAlphaSearchGo c m fuel
    (if c ((minA + maxA) % 256 / 2) < m then (minA + maxA) % 256 / 2 else minA)
    (if c ((minA + maxA) % 256 / 2) < m then maxA else (minA + maxA) % 256 / 2)
    = minAlphaSearchGo c m fuel minA t
  rw [ht, if_neg h, if_neg h]

/-- Loop exit: the window has narrowed to width at most one. -/
theorem searchGo_stop (c : ℕ → ℚ) (m : ℚ) (fuel minA maxA : ℕ)
    (hg : ¬ 1 < wsub8 maxA minA) :
    minAlphaSearchGo c m (fuel + 1) minA maxA = maxA := by
  rw [minAlphaSearchGo, if_neg hg]

end MinimumAlpha

/-! ### Concrete contrast values driving the text-color bisections -/

section ContrastFacts

open ColorUtils Color


/-- Contrast of white at alpha 127 over black stays at or above 4.5. -/
theorem contrastW127_ge :
    ¬ contrastOpaque (fun x => x) (setAlphaComponent Color.WHITE 127) Color.BLACK < 9/2 := by
  norm_num [contrastOpaque, calculateLuminance, rgbToXyz, gammaExpand, setAlphaComponent,
    compositeColors, compositeAlpha, compositeComponent,
    Color.red, Color.green, Color.blue, Color.alpha, Color.argb, Color.WHITE, Color.BLACK]

/-- Contrast of white at alpha 63 over black stays at or above 4.5. -/
theorem contrastW63_ge :
    ¬ contrastOpaque (fun x => x) (setAlphaComponent Color.WHITE 63) Color.BLACK < 9/2 := by
  norm_num [contrastOpaque, calculateLuminance, rgbToXyz, gammaExpand, setAlphaComponent,
    compositeColors, compositeAlpha, compositeComponent,
    Color.red, Color.green, Color.blue, Color.alpha, Color.argb, Color.WHITE, Color.BLACK]

/-- Contrast of white at alpha 47 over black stays at or above 4.5. -/
theorem contrastW47_ge :
    ¬ contrastOpaque (fun x => x) (setAlphaComponent Color.WHITE 47) Color.BLACK < 9/2 := by
  norm_num [contrastOpaque, calculateLuminance, rgbToXyz, gammaExpand, setAlphaComponent,
    compositeColors, compositeAlpha, compositeComponent,
    Color.red, Color.green, Color.blue, Color.alpha, Color.argb, Color.WHITE, Color.BLACK]

/-- Contrast of white at alpha 39 over black stays at or above 4.5. -/
theorem contrastW39_ge :
    ¬ contrastOpaque (fun x => x) (setAlphaComponent Color.WHITE 39) Color.BLACK < 9/2 := by
  norm_num [contrastOpaque, calculateLuminance, rgbToXyz, gammaExpand, setAlphaComponent,
    compositeColors, compositeAlpha, compositeComponent,
    Color.red, Color.green, Color.blue, Color.alpha, Color.argb, Color.WHITE, Color.BLACK]

/-- Contrast of white at alpha 35 over black stays at or above 4.5. -/
theorem contrastW35_ge :
    ¬ contrastOpaque (fun x => x) (setAlphaComponent Color.WHITE 35) Color.BLACK < 9/2 := by
  norm_num [contrastOpaque, calculateLuminance, rgbToXyz, gammaExpand, setAlphaComponent,
    compositeColors, compositeAlpha, compositeComponent,
    Color.red, Color.green, Color.blue, Color.alpha, Color.argb, Color.WHITE, Color.BLACK]

/-- Contrast of white at alpha 34 over black stays at or above 4.5. -/
theorem contrastW34_ge :
    ¬ contrastOpaque (fun x => x) (setAlphaComponent Color.WHITE 34) Color.BLACK < 9/2 := by
  norm_num [contrastOpaque, calculateLuminance, rgbToXyz, gammaExpand, setAlphaComponent,
    compositeColors, compositeAlpha, compositeComponent,
    Color.red, Color.green, Color.blue, Color.alpha, Color.argb, Color.WHITE, Color.BLACK]

/-- Contrast of white at alpha 31 over black falls below 4.5. -/
theorem contrastW31_lt :
    contrastOpaque (fun x => x) (setAlphaComponent Color.WHITE 31) Color.BLACK < 9/2 := by
  norm_num [contrastOpaque, calculateLuminance, rgbToXyz, gammaExpand, setAlphaComponent,
    compositeColors, compositeAlpha, compositeComponent,
    Color.red, Color.green, Color.blue, Color.alpha, Color.argb, Color.WHITE, Color.BLACK]

/-- Contrast of white at alpha 33 over black falls below 4.5. -/
theorem contrastW33_lt :
    contrastOpaque (fun x => x) (setAlphaComponent Color.WHITE 33) Color.BLACK < 9/2 := by
  norm_num [contrastOpaque, calculateLuminance, rgbToXyz, gammaExpand, setAlphaComponent,
    compositeColors, compositeAlpha, compositeComponent,
    Color.red, Color.green, Color.blue, Color.alpha, Color.argb, Color.WHITE, Color.BLACK]

/-- Contrast of white at alpha 31 over black stays at or above 3. -/
theorem contrastW31_ge3 :
    ¬ contrastOpaque (fun x => x) (setAlphaComponent Color.WHITE 31) Color.BLACK < 3 := by
  norm_num [contrastOpaque, calculateLuminance, rgbToXyz, gammaExpand, setAlphaComponent,
    compositeColors, compositeAlpha, compositeComponent,
    Color.red, Color.green, Color.blue, Color.alpha, Color.argb, Color.WHITE, Color.BLACK]

/-- Contrast of white at alpha 15 over black stays at or above 3. -/
theorem contrastW15_ge3 :
    ¬ contrastOpaque (fun x => x) (setAlphaComponent Color.WHITE 15) Color.BLACK < 3 := by
  norm_num [contrastOpaque, calculateLuminance, rgbToXyz, gammaExpand, setAlphaComponent,
    compositeColors, compositeAlpha, compositeComponent,
    Color.red, Color.green, Color.blue, Color.alpha, Color.argb, Color.WHITE, Color.BLACK]

/-- Contrast of white at alpha 13 over black stays at or above 3. -/
theorem contrastW13_ge3 :
    ¬ contrastOpaque (fun x => x) (setAlphaComponent Color.WHITE 13) Color.BLACK < 3 := by
  norm_num [contrastOpaque, calculateLuminance, rgbToXyz, gammaExpand, setAlphaComponent,
    compositeColors, compositeAlpha, compositeComponent,
    Color.red, Color.green, Color.blue, Color.alpha, Color.argb, Color.WHITE, Color.BLACK]

/-- Contrast of white at alpha 7 over black falls below 3. -/
theorem contrastW7_lt3 :
    contrastOpaque (fun x => x) (setAlphaComponent Color.WHITE 7) Color.BLACK < 3 := by
  norm_num [contrastOpaque, calculateLuminance, rgbToXyz, gammaExpand, setAlphaComponent,
    compositeColors, compositeAlpha, compositeComponent,
    Color.red, Color.green, Color.blue, Color.alpha, Color.argb, Color.WHITE, Color.BLACK]

/-- Contrast of white at alpha 11 over black falls below 3. -/
theorem contrastW11_lt3 :
    contrastOpaque (fun x => x) (setAlphaComponent Color.WHITE 11) Color.BLACK < 3 := by
  norm_num [contrastOpaque, calculateLuminance, rgbToXyz, gammaExpand, setAlphaComponent,
    compositeColors, compositeAlpha, compositeComponent,
    Color.red, Color.green, Color.blue, Color.alpha, Color.argb, Color.WHITE, Color.BLACK]

/-- Contrast of white at alpha 12 over black falls below 3. -/
theorem contrastW12_lt3 :
    contrastOpaque (fun x => x) (setAlphaComponent Color.WHITE 12) Color.BLACK < 3 := by
  norm_num [contrastOpaque, calculateLuminance, rgbToXyz, gammaExpand, setAlphaComponent,
    compositeColors, compositeAlpha, compositeComponent,
    Color.red, Color.green, Color.blue, Color.alpha, Color.argb, Color.WHITE, Color.BLACK]

/-- Contrast of fully opaque white over black is exactly 21. -/
theorem contrastW255_eq :
    contrastOpaque (fun x => x) (setAlphaComponent Color.WHITE 255) Color.BLACK = 21 := by
  norm_num [contrastOpaque, calculateLuminance, rgbToXyz, gammaExpand, setAlphaComponent,
    compositeColors, compositeAlpha, compositeComponent,
    Color.red, Color.green, Color.blue, Color.alpha, Color.argb, Color.WHITE, Color.BLACK]

/-- Contrast of black at alpha 127 over white falls below 3. -/
theorem contrastB127_lt3 :
    contrastOpaque (fun x => x) (setAlphaComponent Color.BLACK 127) Color.WHITE < 3 := by
  norm_num [contrastOpaque, calculateLuminance, rgbToXyz, gammaExpand, setAlphaComponent,
    compositeColors, compositeAlpha, compositeComponent,
    Color.red, Color.green, Color.blue, Color.alpha, Color.argb, Color.WHITE, Color.BLACK]

/-- Contrast of black at alpha 63 over white falls below 3. -/
theorem contrastB63_lt3 :
    contrastOpaque (fun x => x) (setAlphaComponent Color.BLACK 63) Color.WHITE < 3 := by
  norm_num [contrastOpaque, calculateLuminance, rgbToXyz, gammaExpand, setAlphaComponent,
    compositeColors, compositeAlpha, compositeComponent,
    Color.red, Color.green, Color.blue, Color.alpha, Color.argb, Color.WHITE, Color.BLACK]

/-- Contrast of black at alpha 31 over white falls below 3. -/
theorem contrastB31_lt3 :
    contrastOpaque (fun x => x) (setAlphaComponent Color.BLACK 31) Color.WHITE < 3 := by
  norm_num [contrastOpaque, calculateLuminance, rgbToXyz, gammaExpand, setAlphaComponent,
    compositeColors, compositeAlpha, compositeComponent,
    Color.red, Color.green, Color.blue, Color.alpha, Color.argb, Color.WHITE, Color.BLACK]

/-- Contrast of black at alpha 15 over white falls below 3. -/
theorem contrastB15_lt3 :
    contrastOpaque (fun x => x) (setAlphaComponent Color.BLACK 15) Color.WHITE < 3 := by
  norm_num [contrastOpaque, calculateLuminance, rgbToXyz, gammaExpand, setAlphaComponent,
    compositeColors, compositeAlpha, compositeComponent,
    Color.red, Color.green, Color.blue, Color.alpha, Color.argb, Color.WHITE, Color.BLACK]

/-- Contrast of black at alpha 7 over white falls below 3. -/
theorem contrastB7_lt3 :
    contrastOpaque (fun x => x) (setAlphaComponent Color.BLACK 7) Color.WHITE < 3 := by
  norm_num [contrastOpaque, calculateLuminance, rgbToXyz, gammaExpand, setAlphaComponent,
    compositeColors, compositeAlpha, compositeComponent,
    Color.red, Color.green, Color.blue, Color.alpha, Color.argb, Color.WHITE, Color.BLACK]

/-- Contrast of black at alpha 3 over white falls below 3. -/
theorem contrastB3_lt3 :
    contrastOpaque (fun x => x) (setAlphaComponent Color.BLACK 3) Color.WHITE < 3 := by
  norm_num [contrastOpaque, calculateLuminance, rgbToXyz, gammaExpand, setAlphaComponent,
    compositeColors, compositeAlpha, compositeComponent,
    Color.red, Color.green, Color.blue, Color.alpha, Color.argb, Color.WHITE, Color.BLACK]

/-- Contrast of black at alpha 1 over white falls below 3. -/
theorem contrastB1_lt3 :
    contrastOpaque (fun x => x) (setAlphaComponent Color.BLACK 1) Color.WHITE < 3 := by
  norm_num [contrastOpaque, calculateLuminance, rgbToXyz, gammaExpand, setAlphaComponent,
    compositeColors, compositeAlpha, compositeComponent,
    Color.red, Color.green, Color.blue, Color.alpha, Color.argb, Color.WHITE, Color.BLACK]

/-- Contrast of black at alpha 0 over white falls below 3. -/
theorem contrastB0_lt3 :
    contrastOpaque (fun x => x) (setAlphaComponent Color.BLACK 0) Color.WHITE < 3 := by
  norm_num [contrastOpaque, calculateLuminance, rgbToXyz, gammaExpand, setAlphaComponent,
    compositeColors, compositeAlpha, compositeComponent,
    Color.red, Color.green, Color.blue, Color.alpha, Color.argb, Color.WHITE, Color.BLACK]

/-- Contrast of fully opaque black over white is exactly 21. -/
theorem contrastB255_eq :
    contrastOpaque (fun x => x) (setAlphaComponent Color.BLACK 255) Color.WHITE = 21 := by
  norm_num [contrastOpaque, calculateLuminance, rgbToXyz, gammaExpand, setAlphaComponent,
    compositeColors, compositeAlpha, compositeComponent,
    Color.red, Color.green, Color.blue, Color.alpha, Color.argb, Color.WHITE, Color.BLACK]

end ContrastFacts

/-! ### End-to-end `calculate_minimum_alpha` evaluations -/

section CmaEvaluations

open ColorUtils Color

/-- Contrast of fully opaque white over white is exactly 1. -/
theorem contrastWW_eq :
    contrastOpaque (fun x => x) (setAlphaComponent Color.WHITE 255) Color.WHITE = 1 := by
  norm_num [contrastOpaque, calculateLuminance, rgbToXyz, gammaExpand, setAlphaComponent,
    compositeColors, compositeAlpha, compositeComponent,
    Color.red, Color.green, Color.blue, Color.alpha, Color.argb, Color.WHITE, Color.BLACK]

/-- Under the probe `pw := fun _ => -1` standing for `powf`, opaque white
over black contrasts at `-1/19`. -/
theorem contrastNegWB_eq :
    contrastOpaque (fun _ => (-1 : ℚ)) (setAlphaComponent Color.WHITE 255) Color.BLACK
      = -1/19 := by
  norm_num [contrastOpaque, calculateLuminance, rgbToXyz, gammaExpand, setAlphaComponent,
    compositeColors, compositeAlpha, compositeComponent,
    Color.red, Color.green, Color.blue, Color.alpha, Color.argb, Color.WHITE, Color.BLACK]

/-- Under the probe `pw := fun _ => -1`, opaque black over black contrasts
at 1. -/
theorem contrastNegBB_eq :
    contrastOpaque (fun _ => (-1 : ℚ)) (setAlphaComponent Color.BLACK 255) Color.BLACK
      = 1 := by
  norm_num [contrastOpaque, calculateLuminance, rgbToXyz, gammaExpand, setAlphaComponent,
    compositeColors, compositeAlpha, compositeComponent,
    Color.red, Color.green, Color.blue, Color.alpha, Color.argb, Color.WHITE, Color.BLACK]

set_option maxHeartbeats 1000000 in
/-- Evaluation of the body-text search: white text over a black swatch needs
alpha 34 at contrast 4.5. -/
theorem cmaWhiteBlackBody :
    calculateMinimumAlpha (fun x => x) Color.WHITE Color.BLACK (9/2) = some 34 := by
  rw [cma_search (fun x => x) Color.WHITE Color.BLACK (9/2) (by decide)
    (by rw [contrastW255_eq]; norm_num)]
  rw [minAlphaSearch,
    searchGo_step_ge _ _ _ _ _ 127 (by decide) (by decide) contrastW127_ge,
    searchGo_step_ge _ _ _ _ _ 63 (by decide) (by decide) contrastW63_ge,
    searchGo_step_lt _ _ _ _ _ 31 (by decide) (by decide) contrastW31_lt,
    searchGo_step_ge _ _ _ _ _ 47 (by decide) (by decide) contrastW47_ge,
    searchGo_step_ge _ _ _ _ _ 39 (by decide) (by decide) contrastW39_ge,
    searchGo_step_ge _ _ _ _ _ 35 (by decide) (by decide) contrastW35_ge,
    searchGo_step_lt _ _ _ _ _ 33 (by decide) (by decide) contrastW33_lt,
    searchGo_step_ge _ _ _ _ _ 34 (by decide) (by decide) contrastW34_ge,
    searchGo_stop _ _ _ _ _ (by decide)]
  norm_num

set_option maxHeartbeats 1000000 in
/-- Evaluation of the title-text search: white text over a black swatch
needs alpha 13 at contrast 3. -/
theorem cmaWhiteBlackTitle :
    calculateMinimumAlpha (fun x => x) Color.WHITE Color.BLACK 3 = some 13 := by
  rw [cma_search (fun x => x) Color.WHITE Color.BLACK 3 (by decide)
    (by rw [contrastW255_eq]; norm_num)]
  rw [minAlphaSearch,
    searchGo_step_ge _ _ _ _ _ 127 (by decide) (by decide)
      (fun h => contrastW127_ge (h.trans (by norm_num))),
    searchGo_step_ge _ _ _ _ _ 63 (by decide) (by decide)
      (fun h => contrastW63_ge (h.trans (by norm_num))),
    searchGo_step_ge _ _ _ _ _ 31 (by decide) (by decide) contrastW31_ge3,
    searchGo_step_ge _ _ _ _ _ 15 (by decide) (by decide) contrastW15_ge3,
    searchGo_step_lt _ _ _ _ _ 7 (by decide) (by decide) contrastW7_lt3,
    searchGo_step_lt _ _ _ _ _ 11 (by decide) (by decide) contrastW11_lt3,
    searchGo_step_ge _ _ _ _ _ 13 (by decide) (by decide) contrastW13_ge3,
    searchGo_step_lt _ _ _ _ _ 12 (by decide) (by decide) contrastW12_lt3,
    searchGo_stop _ _ _ _ _ (by decide)]
  norm_num

set_option maxHeartbeats 1000000 in
/-- Evaluation of the body-text search for black text over a white swatch:
the `u8` midpoint overflow keeps `max_alpha` pinned at 255, and after the 11
admitted iterations the loop returns 255. -/
theorem cmaBlackWhiteBody :
    calculateMinimumAlpha (fun x => x) Color.BLACK Color.WHITE (9/2) = some 255 := by
  rw [cma_search (fun x => x) Color.BLACK Color.WHITE (9/2) (by decide)
    (by rw [contrastB255_eq]; norm_num)]
  rw [minAlphaSearch,
    searchGo_step_lt _ _ _ _ _ 127 (by decide) (by decide)
      (contrastB127_lt3.trans (by norm_num)),
    searchGo_step_lt _ _ _ _ _ 63 (by decide) (by decide)
      (contrastB63_lt3.trans (by norm_num)),
    searchGo_step_lt _ _ _ _ _ 31 (by decide) (by decide)
      (contrastB31_lt3.trans (by norm_num)),
    searchGo_step_lt _ _ _ _ _ 15 (by decide) (by decide)
      (contrastB15_lt3.trans (by norm_num)),
    searchGo_step_lt _ _ _ _ _ 7 (by decide) (by decide)
      (contrastB7_lt3.trans (by norm_num)),
    searchGo_step_lt _ _ _ _ _ 3 (by decide) (by decide)
      (contrastB3_lt3.trans (by norm_num)),
    searchGo_step_lt _ _ _ _ _ 1 (by decide) (by decide)
      (contrastB1_lt3.trans (by norm_num)),
    searchGo_step_lt _ _ _ _ _ 0 (by decide) (by decide)
      (contrastB0_lt3.trans (by norm_num)),
    searchGo_step_lt _ _ _ _ _ 127 (by decide) (by decide)
      (contrastB127_lt3.trans (by norm_num)),
    searchGo_step_lt _ _ _ _ _ 63 (by decide) (by decide)
      (contrastB63_lt3.trans (by norm_num)),
    searchGo_step_lt _ _ _ _ _ 31 (by decide) (by decide)
      (contrastB31_lt3.trans (by norm_num)),
    minAlphaSearchGo]
  norm_num

set_option maxHeartbeats 1000000 in
/-- Evaluation of the title-text search for black text over a white swatch:
the same overflow cycle ends at 255. -/
theorem cmaBlackWhiteTitle :
    calculateMinimumAlpha (fun x => x) Color.BLACK Color.WHITE 3 = some 255 := by
  rw [cma_search (fun x => x) Color.BLACK Color.WHITE 3 (by decide)
    (by rw [contrastB255_eq]; norm_num)]
  rw [minAlphaSearch,
    searchGo_step_lt _ _ _ _ _ 127 (by decide) (by decide) contrastB127_lt3,
    searchGo_step_lt _ _ _ _ _ 63 (by decide) (by decide) contrastB63_lt3,
    searchGo_step_lt _ _ _ _ _ 31 (by decide) (by decide) contrastB31_lt3,
    searchGo_step_lt _ _ _ _ _ 15 (by decide) (by decide) contrastB15_lt3,
    searchGo_step_lt _ _ _ _ _ 7 (by decide) (by decide) contrastB7_lt3,
    searchGo_step_lt _ _ _ _ _ 3 (by decide) (by decide) contrastB3_lt3,
    searchGo_step_lt _ _ _ _ _ 1 (by decide) (by decide) contrastB1_lt3,
    searchGo_step_lt _ _ _ _ _ 0 (by decide) (by decide) contrastB0_lt3,
    searchGo_step_lt _ _ _ _ _ 127 (by decide) (by decide) contrastB127_lt3,
    searchGo_step_lt _ _ _ _ _ 63 (by decide) (by decide) contrastB63_lt3,
    searchGo_step_lt _ _ _ _ _ 31 (by decide) (by decide) contrastB31_lt3,
    minAlphaSearchGo]
  norm_num

/-- White text is unusable over a white swatch at the body threshold. -/
theorem cmaWhiteWhiteBody :
    calculateMinimumAlpha (fun x => x) Color.WHITE Color.WHITE (9/2) = some (-1) :=
  cma_neg1 _ _ _ _ (by decide) (by rw [contrastWW_eq]; norm_num)

/-- White text is unusable over a white swatch at the title threshold. -/
theorem cmaWhiteWhiteTitle :
    calculateMinimumAlpha (fun x => x) Color.WHITE Color.WHITE 3 = some (-1) :=
  cma_neg1 _ _ _ _ (by decide) (by rw [contrastWW_eq]; norm_num)

/-- Under the probe `pw := fun _ => -1`, white text misses the body
threshold over a black swatch. -/
theorem cmaNegWhiteBlackBody :
    calculateMinimumAlpha (fun _ => (-1 : ℚ)) Color.WHITE Color.BLACK (9/2)
      = some (-1) :=
  cma_neg1 _ _ _ _ (by decide) (by rw [contrastNegWB_eq]; norm_num)

/-- Under the probe `pw := fun _ => -1`, white text misses the title
threshold over a black swatch. -/
theorem cmaNegWhiteBlackTitle :
    calculateMinimumAlpha (fun _ => (-1 : ℚ)) Color.WHITE Color.BLACK 3
      = some (-1) :=
  cma_neg1 _ _ _ _ (by decide) (by rw [contrastNegWB_eq]; norm_num)

/-- Under the probe `pw := fun _ => -1`, black text misses the body
threshold over a black swatch. -/
theorem cmaNegBlackBlackBody :
    calculateMinimumAlpha (fun _ => (-1 : ℚ)) Color.BLACK Color.BLACK (9/2)
      = some (-1) :=
  cma_neg1 _ _ _ _ (by decide) (by rw [contrastNegBB_eq]; norm_num)

/-- Under the probe `pw := fun _ => -1`, black text misses the title
threshold over a black swatch. -/
theorem cmaNegBlackBlackTitle :
    calculateMinimumAlpha (fun _ => (-1 : ℚ)) Color.BLACK Color.BLACK 3
      = some (-1) :=
  cma_neg1 _ _ _ _ (by decide) (by rw [contrastNegBB_eq]; norm_num)

end CmaEvaluations

open ColorUtils Color in
/-- Claim C3 (code_bug): the claim describes `calculate_minimum_alpha` as a
binary search of at most 10 iterations that narrows the window to width ≤ 1
and returns its conservative passing upper bound.  Confirmed parts: the
`-1` sentinel appears exactly when the fully opaque foreground misses
`min_contrast_ratio` (second conjunct), and
`minimum_alpha(white, black, 21.1) = -1` (first conjunct).  Refuted part:
with the contrast profile `c a = a / 16` and threshold 10 the loop returns
255 even though the least passing alpha is 160 — the `u8` midpoint
`(min_alpha + max_alpha) / 2` overflows, the window never narrows, and the
loop (which actually runs 11 iterations) hands back the untouched upper
bound, far above any window a narrowing search could end on. -/
theorem C3_minimum_alpha_bisection :
    calculateMinimumAlpha (fun x => x) Color.WHITE Color.BLACK (211/10) = some (-1) ∧
    (∀ (pw : ℚ → ℚ) (fg bg : ℕ) (m : ℚ), Color.alpha bg = 255 →
      (calculateMinimumAlpha pw fg bg m = some (-1) ↔
        contrastOpaque pw (setAlphaComponent fg 255) bg < m)) ∧
    minAlphaSearch (fun a => (a : ℚ) / 16) 10 = 255 ∧
    ((10 : ℚ) ≤ 160 / 16 ∧ (160 : ℕ) + 1 < 255) := by
  refine ⟨?_, ?_, ?_, by norm_num⟩
  · exact cma_neg1 _ _ _ _ (by decide) (by rw [contrastW255_eq]; norm_num)
  · intro pw fg bg m h
    rw [calculateMinimumAlpha, if_neg (by simp [h])]
    show (if contrastOpaque pw (setAlphaComponent fg 255) bg < m then some (-1)
      else some ((minAlphaSearch
        (fun t => contrastOpaque pw (setAlphaComponent fg t) bg) m : ℕ) : ℤ))
        = some (-1) ↔ _
    by_cases hc : contrastOpaque pw (setAlphaComponent fg 255) bg < m
    · rw [if_pos hc]
      simp [hc]
    · rw [if_neg hc]
      simp only [Option.some.injEq]
      constructor
      · intro heq
        exact absurd heq (by omega)
      · intro hlt
        exact absurd hlt hc
  · norm_num [minAlphaSearch, minAlphaSearchGo, wsub8]

open ColorUtils Color in
/-- Witness for Claim C3's sentinel characterization, instantiated at the
opaque black background and threshold 22. -/
theorem C3_minimum_alpha_bisection_witness :
    calculateMinimumAlpha (fun x => x) Color.WHITE Color.BLACK 22 = some (-1) ↔
      contrastOpaque (fun x => x) (setAlphaComponent Color.WHITE 255) Color.BLACK
        < 22 :=
  C3_minimum_alpha_bisection.2.1 (fun x => x) Color.WHITE Color.BLACK 22 (by decide)

open ColorUtils Color in
/-- Claim C4 (code_bug): `calculate_contrast` panics exactly on a
non-opaque background (confirmed, first conjunct) and yields the WCAG ratio
over the luminances — 21 for white on black (confirmed, second conjunct).
Refuted part: the claim's compositing operator reads each color channel,
but `Color::blue` returns the green byte, so compositing
`0x80FF00FF` over opaque black drops the blue channel entirely
(`0xFF800000` instead of the claim's `0xFF800080`). -/
theorem C4_calculate_contrast :
    (∀ (pw : ℚ → ℚ) (fg bg : ℕ),
      calculateContrast pw fg bg = none ↔ Color.alpha bg ≠ 255) ∧
    calculateContrast (fun x => x) Color.WHITE Color.BLACK = some 21 ∧
    compositeColors 0x80FF00FF 0xFF000000 = 0xFF800000 ∧
    compositeColorsClaim 0x80FF00FF 0xFF000000 = 0xFF800080 ∧
    compositeColors 0x80FF00FF 0xFF000000 ≠ compositeColorsClaim 0x80FF00FF 0xFF000000 := by
  refine ⟨?_, ?_, by decide, by decide, by decide⟩
  · intro pw fg bg
    by_cases h : Color.alpha bg = 255 <;> simp [calculateContrast, h]
  · norm_num [calculateContrast, contrastOpaque, calculateLuminance, rgbToXyz,
      gammaExpand, Color.red, Color.green, Color.blue, Color.alpha, Color.WHITE,
      Color.BLACK]

open ColorUtils in
/-- Claim C5 (code_bug): `rgb_to_hsl` is claimed to equal the standard
min/max HSL derivation.  On the monochromatic diagonal the claim holds
(last conjunct), but on `(128, 0, 255)` the source's
`min = min(rf, max(gf, bf))` picks 128/255 for the minimum channel instead
of 0, so hue, saturation denominator and lightness all diverge from the
standard derivation (modelled by `rgbToHslStandard`). -/
theorem C5_rgb_to_hsl_divergence :
    rgbToHsl 128 0 255 = (38160/127, 1, 383/510) ∧
    rgbToHslStandard 128 0 255 = (4592/17, 1, 1/2) ∧
    rgbToHsl 128 0 255 ≠ rgbToHslStandard 128 0 255 ∧
    (∀ x : Fin 256, rgbToHsl x x x = (0, 0, (x : ℚ) / 255)) := by
  have hA : rgbToHsl 128 0 255 = (38160/127, 1, 383/510) := by
    norm_num [rgbToHsl, constrain, fmod_small, min_def, max_def, abs_of_nonneg]
  have hB : rgbToHslStandard 128 0 255 = (4592/17, 1, 1/2) := by
    norm_num [rgbToHslStandard, constrain, fmod_small, min_def, max_def, abs_of_nonneg]
  refine ⟨hA, hB, ?_, ?_⟩
  · rw [hA, hB]
    intro hEq
    have h1 : (38160/127 : ℚ) = 4592/17 := congrArg Prod.fst hEq
    exact absurd h1 (by norm_num)
  · intro x
    have hle : ((x : ℚ) / 255) ≤ 1 := by
      rw [div_le_one (by norm_num)]
      have hx := x.isLt
      have : ((x : ℕ) : ℚ) ≤ 255 := by exact_mod_cast Nat.le_of_lt_succ hx
      linarith
    have h0 : (0 : ℚ) ≤ (x : ℚ) / 255 := by positivity
    simp only [rgbToHsl, max_self, min_self, eq_self_iff_true, if_true]
    rw [show fmod (0 * 60 : ℚ) 360 = 0 from by
      rw [zero_mul]; exact fmod_small 0 360 le_rfl (by norm_num)]
    rw [if_neg (by norm_num)]
    unfold constrain
    rw [if_neg (by norm_num), if_neg (by norm_num)]
    have hhalf : ((x : ℚ) / 255 + (x : ℚ) / 255) / 2 = (x : ℚ) / 255 := by ring
    rw [hhalf, if_neg (not_lt.mpr h0), min_eq_left hle]
    norm_num

open DefaultFilter in
/-- Claim C6 (code_bug): the default filter is claimed to reject exactly
near-white (lightness ≥ 0.95), near-black (lightness ≤ 0.05) and the red
I-line wedge.  The source's `is_white` tests `hsl[2] <= 0.95` instead of
`>=`, so mid-lightness colors are rejected as "white" while truly
near-white colors pass: the mid-gray-blue `(200, 0.5, 0.5)` is refused and
the near-white `(200, 0.5, 0.97)` is allowed.  The third conjunct
characterizes the code's actual acceptance set: lightness strictly above
0.95 and outside the red I-line wedge. -/
theorem C6_default_filter_inverted :
    isAllowed 0 (200, 1/2, 1/2) = false ∧
    isAllowed 0 (200, 1/2, 97/100) = true ∧
    (∀ (rgb : ℕ) (hsl : Hsl), isAllowed rgb hsl = true ↔
      (95/100 < hsl.2.2 ∧ ¬(10 ≤ hsl.1 ∧ hsl.1 ≤ 37 ∧ hsl.2.1 ≤ 82/100))) := by
  refine ⟨?_, ?_, ?_⟩
  · norm_num [isAllowed, isWhite, isBlack, isNearRedILine, WHITE_MIN_LIGHTNESS,
      BLACK_MAX_LIGHTNESS]
  · norm_num [isAllowed, isWhite, isBlack, isNearRedILine, WHITE_MIN_LIGHTNESS,
      BLACK_MAX_LIGHTNESS]
  · intro rgb hsl
    simp [isAllowed, isWhite, isBlack, isNearRedILine, WHITE_MIN_LIGHTNESS,
      BLACK_MAX_LIGHTNESS]
    constructor
    · rintro ⟨⟨hw, _⟩, h⟩
      refine ⟨hw, fun h1 h2 => ?_⟩
      rcases h with (h | h) | h
      · linarith
      · linarith
      · exact h
    · rintro ⟨hw, h⟩
      refine ⟨⟨hw, by linarith⟩, ?_⟩
      by_cases h1 : 10 ≤ hsl.1
      · by_cases h2 : hsl.1 ≤ 37
        · exact Or.inr (h h1 h2)
        · exact Or.inl (Or.inr (lt_of_not_le h2))
      · exact Or.inl (Or.inl (lt_of_not_le h1))

open ColorCutQuantizer in
/-- Claim C7 (code_bug): splitting a splittable box is claimed to yield two
boxes partitioning `[lower, upper]`, and the driver is claimed never to
split a single-color box.  First group: a two-color box fits, is
splittable, and its split point is found — yet `split_box` aborts, because
the new box is built over `(split_point, upper + 1)` and the index
`upper + 1` is read out of bounds.  Second group: `split_boxes` pops a
single-color box without a `can_split` check and dies on `split_box`'s
unsplittable-box panic, so the "unreachable" failure branch is reached. -/
theorem C7_split_box_failures :
    (fitBox ⟨[0, 1], [1, 1]⟩ 0 1 = some ⟨0, 1, 2, 0, 0, 0, 0, 0, 0⟩ ∧
      Vbox.canSplit ⟨0, 1, 2, 0, 0, 0, 0, 0, 0⟩ = true ∧
      findSplitPoint ⟨[0, 1], [1, 1]⟩ ⟨0, 1, 2, 0, 0, 0, 0, 0, 0⟩
        = some (⟨[0, 1], [1, 1]⟩, 0) ∧
      splitBox ⟨[0, 1], [1, 1]⟩ ⟨0, 1, 2, 0, 0, 0, 0, 0, 0⟩ = none) ∧
    (fitBox ⟨[0], [1]⟩ 0 0 = some ⟨0, 0, 1, 0, 0, 0, 0, 0, 0⟩ ∧
      Vbox.canSplit ⟨0, 0, 1, 0, 0, 0, 0, 0, 0⟩ = false ∧
      splitBoxes ⟨[0], [1]⟩ [⟨0, 0, 1, 0, 0, 0, 0, 0, 0⟩] 2 = none) := by
  decide

open Color in
/-- Claim C8 (code_bug): packing `(a, r, g, b) = (255, 1, 2, 3)` with
`Color::argb` and extracting the components returns the green byte for
blue (`Color::blue` shifts by 8, not 0), so the round trip yields
`(255, 1, 2, 2)`; the claim's extraction (low byte, `blueDocumented`) and
the parallel `ColorInt::blue` both recover 3. -/
theorem C8_argb_blue_channel :
    alpha (argb 255 1 2 3) = 255 ∧ red (argb 255 1 2 3) = 1 ∧
    green (argb 255 1 2 3) = 2 ∧ blue (argb 255 1 2 3) = 2 ∧
    blue (argb 255 1 2 3) ≠ 3 ∧ blueDocumented (argb 255 1 2 3) = 3 ∧
    ColorInt.blue (argb 255 1 2 3) = 3 := by
  decide

open ColorUtils Swatch in
/-- Claim C9 (confirmed): the text-color derivation follows the
white-then-black policy with per-role fallback, and memoizes.  Part 1: a
generated swatch is returned unchanged.  Part 2: when white has a valid
minimum alpha at both thresholds, both roles are white at those alphas.
Part 3: otherwise, when black has a valid alpha at both thresholds, both
roles are black.  Part 4: otherwise each role independently takes white
where valid and black otherwise.  Part 5: every produced swatch has the
generated flag set and a second run is the identity. -/
theorem C9_text_colors :
    (∀ (pw : ℚ → ℚ) (s : Swatch), s.generatedTextColors = true →
      ensureTextColorsGenerated pw s = some s) ∧
    (∀ (pw : ℚ → ℚ) (s : Swatch) (lb lt : ℤ), s.generatedTextColors = false →
      calculateMinimumAlpha pw Color.WHITE s.rgb MIN_CONTRAST_BODY_TEXT = some lb →
      calculateMinimumAlpha pw Color.WHITE s.rgb MIN_CONTRAST_TITLE_TEXT = some lt →
      lb ≠ -1 → lt ≠ -1 →
      ensureTextColorsGenerated pw s = some { s with
        bodyTextColor := setAlphaComponent Color.WHITE (asU8 lb)
        titleTextColor := setAlphaComponent Color.WHITE (asU8 lt)
        generatedTextColors := true }) ∧
    (∀ (pw : ℚ → ℚ) (s : Swatch) (lb lt db dt : ℤ), s.generatedTextColors = false →
      calculateMinimumAlpha pw Color.WHITE s.rgb MIN_CONTRAST_BODY_TEXT = some lb →
      calculateMinimumAlpha pw Color.WHITE s.rgb MIN_CONTRAST_TITLE_TEXT = some lt →
      ¬(lb ≠ -1 ∧ lt ≠ -1) →
      calculateMinimumAlpha pw Color.BLACK s.rgb MIN_CONTRAST_BODY_TEXT = some db →
      calculateMinimumAlpha pw Color.BLACK s.rgb MIN_CONTRAST_TITLE_TEXT = some dt →
      db ≠ -1 → dt ≠ -1 →
      ensureTextColorsGenerated pw s = some { s with
        bodyTextColor := setAlphaComponent Color.BLACK (asU8 db)
        titleTextColor := setAlphaComponent Color.BLACK (asU8 dt)
        generatedTextColors := true }) ∧
    (∀ (pw : ℚ → ℚ) (s : Swatch) (lb lt db dt : ℤ), s.generatedTextColors = false →
      calculateMinimumAlpha pw Color.WHITE s.rgb MIN_CONTRAST_BODY_TEXT = some lb →
      calculateMinimumAlpha pw Color.WHITE s.rgb MIN_CONTRAST_TITLE_TEXT = some lt →
      ¬(lb ≠ -1 ∧ lt ≠ -1) →
      calculateMinimumAlpha pw Color.BLACK s.rgb MIN_CONTRAST_BODY_TEXT = some db →
      calculateMinimumAlpha pw Color.BLACK s.rgb MIN_CONTRAST_TITLE_TEXT = some dt →
      ¬(db ≠ -1 ∧ dt ≠ -1) →
      ensureTextColorsGenerated pw s = some { s with
        bodyTextColor :=
          if lb ≠ -1 then setAlphaComponent Color.WHITE (asU8 lb)
          else setAlphaComponent Color.BLACK (asU8 db)
        titleTextColor :=
          if lt ≠ -1 then setAlphaComponent Color.WHITE (asU8 lt)
          else setAlphaComponent Color.BLACK (asU8 dt)
        generatedTextColors := true }) ∧
    (∀ (pw : ℚ → ℚ) (s s' : Swatch), ensureTextColorsGenerated pw s = some s' →
      s'.generatedTextColors = true ∧ ensureTextColorsGenerated pw s' = some s') := by
  refine ⟨?_, ?_, ?_, ?_, ?_⟩
  · intro pw s hg
    rw [ensureTextColorsGenerated, if_pos hg]
  · intro pw s lb lt hg hlb hlt hb ht
    rw [ensureTextColorsGenerated, if_neg (by simp [hg])]
    simp only [hlb, hlt, Option.bind_eq_bind, Option.some_bind]
    rw [if_pos ⟨hb, ht⟩]
  · intro pw s lb lt db dt hg hlb hlt hl hdb hdt hb ht
    rw [ensureTextColorsGenerated, if_neg (by simp [hg])]
    simp only [hlb, hlt, hdb, hdt, Option.bind_eq_bind, Option.some_bind]
    rw [if_neg hl, if_pos ⟨hb, ht⟩]
  · intro pw s lb lt db dt hg hlb hlt hl hdb hdt hd
    rw [ensureTextColorsGenerated, if_neg (by simp [hg])]
    simp only [hlb, hlt, hdb, hdt, Option.bind_eq_bind, Option.some_bind]
    rw [if_neg hl, if_neg hd]
  · intro pw s s' h
    rw [ensureTextColorsGenerated] at h
    by_cases hg : s.generatedTextColors
    · rw [if_pos hg] at h
      obtain rfl : s = s' := Option.some.inj h
      exact ⟨hg, by rw [ensureTextColorsGenerated, if_pos hg]⟩
    · rw [if_neg hg] at h
      have key : s'.generatedTextColors = true := by
        rcases hlb : calculateMinimumAlpha pw Color.WHITE s.rgb MIN_CONTRAST_BODY_TEXT
          with _ | lb
        · rw [hlb] at h; simp at h
        rcases hlt : calculateMinimumAlpha pw Color.WHITE s.rgb MIN_CONTRAST_TITLE_TEXT
          with _ | lt
        · rw [hlb, hlt] at h; simp at h
        rw [hlb, hlt] at h
        simp only [Option.bind_eq_bind, Option.some_bind] at h
        by_cases hl : lb ≠ -1 ∧ lt ≠ -1
        · rw [if_pos hl] at h
          obtain rfl := Option.some.inj h
          rfl
        rw [if_neg hl] at h
        rcases hdb : calculateMinimumAlpha pw Color.BLACK s.rgb MIN_CONTRAST_BODY_TEXT
          with _ | db
        · rw [hdb] at h; simp at h
        rcases hdt : calculateMinimumAlpha pw Color.BLACK s.rgb MIN_CONTRAST_TITLE_TEXT
          with _ | dt
        · rw [hdb, hdt] at h; simp at h
        rw [hdb, hdt] at h
        simp only [Option.bind_eq_bind, Option.some_bind] at h
        by_cases hd : db ≠ -1 ∧ dt ≠ -1
        · rw [if_pos hd] at h
          obtain rfl := Option.some.inj h
          rfl
        · rw [if_neg hd] at h
          obtain rfl := Option.some.inj h
          rfl
      exact ⟨key, by rw [ensureTextColorsGenerated, if_pos key]⟩

open ColorUtils Swatch in
/-- Witness for Claim C9: every branch of the policy is exercised at a
concrete swatch.  A black swatch takes white text (alphas 34 and 13), a
white swatch falls through to black text, the probe `pw := fun _ => -1`
drives a black swatch into the mismatched-roles branch, a pre-generated
swatch is returned unchanged, and the white-branch result is memoized. -/
theorem C9_text_colors_witness :
    ensureTextColorsGenerated (fun x => x)
        { Swatch.new Color.BLACK 1 with generatedTextColors := true }
      = some { Swatch.new Color.BLACK 1 with generatedTextColors := true } ∧
    ensureTextColorsGenerated (fun x => x) (Swatch.new Color.BLACK 1)
      = some { Swatch.new Color.BLACK 1 with
          bodyTextColor := setAlphaComponent Color.WHITE (asU8 34)
          titleTextColor := setAlphaComponent Color.WHITE (asU8 13)
          generatedTextColors := true } ∧
    ensureTextColorsGenerated (fun x => x) (Swatch.new Color.WHITE 1)
      = some { Swatch.new Color.WHITE 1 with
          bodyTextColor := setAlphaComponent Color.BLACK (asU8 255)
          titleTextColor := setAlphaComponent Color.BLACK (asU8 255)
          generatedTextColors := true } ∧
    ensureTextColorsGenerated (fun _ => (-1 : ℚ)) (Swatch.new Color.BLACK 1)
      = some { Swatch.new Color.BLACK 1 with
          bodyTextColor :=
            if (-1 : ℤ) ≠ -1 then setAlphaComponent Color.WHITE (asU8 (-1))
            else setAlphaComponent Color.BLACK (asU8 (-1))
          titleTextColor :=
            if (-1 : ℤ) ≠ -1 then setAlphaComponent Color.WHITE (asU8 (-1))
            else setAlphaComponent Color.BLACK (asU8 (-1))
          generatedTextColors := true } ∧
    (({ Swatch.new Color.BLACK 1 with
          bodyTextColor := setAlphaComponent Color.WHITE (asU8 34)
          titleTextColor := setAlphaComponent Color.WHITE (asU8 13)
          generatedTextColors := true } : Swatch).generatedTextColors = true ∧
      ensureTextColorsGenerated (fun x => x)
          { Swatch.new Color.BLACK 1 with
            bodyTextColor := setAlphaComponent Color.WHITE (asU8 34)
            titleTextColor := setAlphaComponent Color.WHITE (asU8 13)
            generatedTextColors := true }
        = some { Swatch.new Color.BLACK 1 with
            bodyTextColor := setAlphaComponent Color.WHITE (asU8 34)
            titleTextColor := setAlphaComponent Color.WHITE (asU8 13)
            generatedTextColors := true }) := by
  refine ⟨?_, ?_, ?_, ?_, ?_⟩
  · exact C9_text_colors.1 _ _ rfl
  · exact C9_text_colors.2.1 _ _ 34 13 rfl cmaWhiteBlackBody cmaWhiteBlackTitle
      (by decide) (by decide)
  · exact C9_text_colors.2.2.1 _ _ (-1) (-1) 255 255 rfl cmaWhiteWhiteBody
      cmaWhiteWhiteTitle (by simp) cmaBlackWhiteBody cmaBlackWhiteTitle
      (by decide) (by decide)
  · exact C9_text_colors.2.2.2.1 _ _ (-1) (-1) (-1) (-1) rfl cmaNegWhiteBlackBody
      cmaNegWhiteBlackTitle (by simp) cmaNegBlackBlackBody cmaNegBlackBlackTitle
      (by simp)
  · exact C9_text_colors.2.2.2.2 _ _ _
      (C9_text_colors.2.1 _ _ 34 13 rfl cmaWhiteBlackBody cmaWhiteBlackTitle
        (by decide) (by decide))

/-- Claim C10, counterexample: a built target whose saturation weight was
set to 3 keeps raw weights `(3, 0.52, 0.24)`: all positive, summing to
3.76 rather than 1, so `build` does not normalize. -/
theorem C10_target_weights_counterexample :
    ((TargetBuilder.new .Vibrant).setSaturationWeight 3).build.weights
      = (3, 52/100, 24/100) ∧
    (3 : ℚ) + 52/100 + 24/100 ≠ 1 ∧
    (0 : ℚ) < 3 ∧ (0 : ℚ) < 52/100 ∧ (0 : ℚ) < 24/100 := by
  refine ⟨?_, by norm_num, by norm_num, by norm_num, by norm_num⟩
  norm_num [TargetBuilder.build, TargetBuilder.new, TargetBuilder.setSaturationWeight,
    Target.new, Target.default]

/-- Claim C10 (corrected): `TargetBuilder::build` returns the working
target unchanged — `normalize_weights` has no caller — so built targets
need not have normalized weights.  What does hold: the six canonical
profiles happen to carry weights summing to 1, and the (dead)
`normalize_weights` routine itself divides the positive weights by their
sum (making them sum to 1) while leaving non-positive weights alone. -/
theorem C10_target_weights_normalized :
    (∀ b : TargetBuilder, b.build = b.target) ∧
    (∀ k : TargetKind, (Target.new k).weights.1 + (Target.new k).weights.2.1 +
      (Target.new k).weights.2.2 = 1) ∧
    (∀ w₁ w₂ w₃ : ℚ, 0 < w₁ → 0 < w₂ → 0 < w₃ →
      Target.normalizeWeights (w₁, w₂, w₃)
        = (w₁ / (w₁ + w₂ + w₃), w₂ / (w₁ + w₂ + w₃), w₃ / (w₁ + w₂ + w₃)) ∧
      w₁ / (w₁ + w₂ + w₃) + w₂ / (w₁ + w₂ + w₃) + w₃ / (w₁ + w₂ + w₃) = 1) ∧
    (∀ w₁ w₂ w₃ : ℚ, w₁ ≤ 0 → 0 < w₂ → 0 < w₃ →
      Target.normalizeWeights (w₁, w₂, w₃)
        = (w₁, w₂ / (w₂ + w₃), w₃ / (w₂ + w₃))) := by
  refine ⟨fun _ => rfl, ?_, ?_, ?_⟩
  · intro k
    cases k <;> norm_num [Target.new, Target.default]
  · intro w₁ w₂ w₃ h1 h2 h3
    have hs : w₁ + w₂ + w₃ ≠ 0 := by positivity
    constructor
    · simp [Target.normalizeWeights, h1, h2, h3, hs]
    · field_simp
  · intro w₁ w₂ w₃ h1 h2 h3
    have hn1 : ¬ 0 < w₁ := not_lt.mpr h1
    have hs : w₂ + w₃ ≠ 0 := by positivity
    simp [Target.normalizeWeights, hn1, h2, h3, hs]

/-- Witness for Claim C10's normalization facts: all-positive weights
`(0.24, 0.52, 0.24)` normalize to themselves with sum 1, and a non-positive
first weight is left untouched while the rest are normalized. -/
theorem C10_target_weights_normalized_witness :
    (Target.normalizeWeights (6/25, 13/25, 6/25)
        = (6/25 / (6/25 + 13/25 + 6/25), 13/25 / (6/25 + 13/25 + 6/25),
            6/25 / (6/25 + 13/25 + 6/25)) ∧
      (6/25 : ℚ) / (6/25 + 13/25 + 6/25) + 13/25 / (6/25 + 13/25 + 6/25)
        + 6/25 / (6/25 + 13/25 + 6/25) = 1) ∧
    Target.normalizeWeights (-1, 13/25, 6/25)
      = (-1, 13/25 / (13/25 + 6/25), 6/25 / (13/25 + 6/25)) :=
  ⟨C10_target_weights_normalized.2.2.1 (6/25) (13/25) (6/25)
      (by norm_num) (by norm_num) (by norm_num),
    C10_target_weights_normalized.2.2.2 (-1) (13/25) (6/25)
      (by norm_num) (by norm_num) (by norm_num)⟩

end Naqsh
